import Mathlib

/-!
Verification development for the TeamsFx environment / provisioning
state-reconciliation core.

The TypeScript sources are embedded shallowly:
  * `component/migrate.ts` — project-settings and env-state schema converters;
  * `component/provision.ts` — subscription reconciliation
    (`checkProvisionSubscriptionWhenSwitchAccountEnabled`,
    `compareWithStateSubscription`, `clearEnvInfoStateResource`,
    `fillInAzureConfigs`);
  * `plugins/solution/fx-solution/v2/provision.ts` — the provisioning
    orchestrator (`provisionResourceImpl`) and the consent dialog
    (`askForProvisionConsentNew`);
  * `core/middleware/envInfoLoader.ts` — `useUserSetEnv`.

Async collaborator calls (identity provider, resource-manager client, user
interaction) are modelled by oracle records holding the responses the
collaborators would return; JavaScript objects become records or association
lists with value semantics, and JS string truthiness (`undefined`/`""` are
falsy) is made explicit through `truthy`.
-/

namespace TeamsFx

/-- JS truthiness of an optional string: `undefined` and `""` are falsy. -/
def truthy : Option String → Bool
  | none => false
  | some s => !(s == "")

/-- JS `a || b` on optional strings: `a` when truthy, else `b`. -/
def jsOr (a b : Option String) : Option String :=
  if truthy a then a else b

/-- JS `a || d` where the fallback is a plain string. -/
def strOr (a : Option String) (d : String) : String :=
  match a with
  | some s => if s == "" then d else s
  | none => d

/-- Error value crossing component boundaries: `UserError`/`SystemError` with
machine-readable `source`/`name` and a human-readable `message`. -/
structure FxError where
  isUserError : Bool
  source : String
  name : String
  message : String
deriving DecidableEq, Repr

/-- `new UserError(source, name, message)`. -/
def userError (source name message : String) : FxError :=
  { isUserError := true, source := source, name := name, message := message }

/-- `new SystemError(source, name, message)`. -/
def systemError (source name message : String) : FxError :=
  { isUserError := false, source := source, name := name, message := message }

/-- Modelled from the spec: the localized message templates (the string
resource `.json` files resolved by `getLocalizedString` are not in the
corpus). The model renders the key applied to its arguments so that the
arguments stay visible in the message. -/
def getLocalizedString (key : String) (args : List String) : String :=
  args.foldl (fun acc a => acc ++ ":" ++ a) key

/-- Modelled from the spec (§6): the per-environment config file name
(`EnvConfigFileNameTemplate` with `EnvNamePlaceholder` substituted; the
`teamsfx-api` constants are not in the corpus). -/
def envConfigFileName (envName : String) : String :=
  "config." ++ envName ++ ".json"

namespace ComponentNames

/-- Modelled from the spec: component identifier for the tab capability
(`component/constants.ts` is not in the corpus; values follow the component
names used throughout the sources and tests). -/
def TeamsTab : String := "teams-tab"

/-- Modelled from the spec: component identifier for the bot capability. -/
def TeamsBot : String := "teams-bot"

/-- Modelled from the spec: component identifier for the API capability. -/
def TeamsApi : String := "teams-api"

/-- Modelled from the spec: component identifier for the app manifest. -/
def AppManifest : String := "app-manifest"

/-- Modelled from the spec: component identifier for the AAD app. -/
def AadApp : String := "aad-app"

/-- Modelled from the spec: component identifier for app-service hosting. -/
def AzureWebApp : String := "azure-web-app"

/-- Modelled from the spec: component identifier for storage hosting. -/
def AzureStorage : String := "azure-storage"

/-- Modelled from the spec: component identifier for the bot registration. -/
def BotService : String := "bot-service"

/-- Modelled from the spec: component identifier for managed identity. -/
def Identity : String := "identity"

/-- Modelled from the spec: component identifier for API management. -/
def APIM : String := "apim"

/-- Modelled from the spec: component identifier for the key vault. -/
def KeyVault : String := "key-vault"

/-- Modelled from the spec: component identifier for Azure SQL. -/
def AzureSQL : String := "azure-sql"

/-- Modelled from the spec: component identifier for functions hosting. -/
def Function : String := "azure-function"

/-- Modelled from the spec: component identifier for simple auth. -/
def SimpleAuth : String := "simple-auth"

end ComponentNames

namespace V1PluginNames

/-- Modelled from the spec: legacy plugin name of the bot plugin
(`component/constants.ts` is not in the corpus; values follow the
`fx-resource-*` names used throughout the sources and tests). -/
def bot : String := "fx-resource-bot"

/-- Modelled from the spec: legacy plugin name of the frontend hosting plugin. -/
def frontend : String := "fx-resource-frontend-hosting"

/-- Modelled from the spec: legacy plugin name of the function plugin. -/
def function : String := "fx-resource-function"

/-- Modelled from the spec: legacy plugin name of the identity plugin. -/
def identity : String := "fx-resource-identity"

/-- Modelled from the spec: legacy plugin name of the key-vault plugin. -/
def keyVault : String := "fx-resource-key-vault"

/-- Modelled from the spec: legacy plugin name of the SQL plugin. -/
def sql : String := "fx-resource-azure-sql"

/-- Modelled from the spec: legacy plugin name of the simple-auth plugin. -/
def simpleAuth : String := "fx-resource-simple-auth"

/-- Modelled from the spec: legacy plugin name of the APIM plugin. -/
def apim : String := "fx-resource-apim"

/-- Modelled from the spec: legacy plugin name of the AAD plugin. -/
def aad : String := "fx-resource-aad-app-for-teams"

/-- Modelled from the spec: legacy plugin name of the app-studio plugin. -/
def appStudio : String := "fx-resource-appstudio"

end V1PluginNames

/-! ## Project settings model (`component/migrate.ts`) -/

/-- One node of the V3 component graph. Optional fields model the fields the
converters read or write; `none` is a field that is absent in the JSON. -/
structure Component where
  name : String
  hosting : Option String := none
  provision : Option Bool := none
  build : Option Bool := none
  deploy : Option Bool := none
  folder : Option String := none
  artifactFolder : Option String := none
  sso : Option Bool := none
  capabilities : Option (List String) := none
  connections : Option (List String) := none
  scenario : Option String := none
  functionNames : Option (List String) := none
deriving DecidableEq, Repr

/-- The legacy `AzureSolutionSettings` object. -/
structure SolutionSettings where
  name : String := ""
  version : String := ""
  hostType : String := ""
  azureResources : List String := []
  capabilities : List String := []
  activeResourcePlugins : List String := []
deriving DecidableEq, Repr

/-- `pluginSettings["fx-resource-bot"]`: the only plugin-settings entry the
converters read or write. -/
structure BotPluginSettings where
  hostType : Option String := none
  capabilities : Option (List String) := none
deriving DecidableEq, Repr

/-- Versioned project settings descriptor. A legacy (V2) object carries
`solutionSettings` and no `components`; an upgraded (V3) object carries a
`components` graph. The `botPluginSettings` field embeds
`pluginSettings?.["fx-resource-bot"]`. -/
structure ProjectSettings where
  appName : String := ""
  projectId : String := ""
  programmingLanguage : Option String := none
  solutionSettings : Option SolutionSettings := none
  botPluginSettings : Option BotPluginSettings := none
  defaultFunctionName : Option String := none
  components : Option (List Component) := none
deriving DecidableEq, Repr

/-- Modelled from the spec: `isVSProject` (common/projectSettingsHelper.ts is
not in the corpus): a Visual Studio project is recognized by its
`programmingLanguage` being `csharp` (the VS branches of the converter emit
`bin\...\publish` artifact folders for exactly these projects). -/
def isVSProject (s : ProjectSettings) : Bool :=
  s.programmingLanguage == some "csharp"

/-- Modelled from the spec: `MessageExtensionNewUIItem.id`
(fx-solution/question.ts is not in the corpus): the capability tag of the
message-extension item. -/
def MessageExtensionNewUIItemId : String := "MessagingExtension"

/-- `getComponent(settings, name)`: first component with the given name. -/
def findComponent (cs : List Component) (name : String) : Option Component :=
  cs.find? (fun c => c.name == name)

/-- `hostingConfig.connections = hostingConfig.connections || []; push(conn)`
applied to the first component with the given name. -/
def pushConnection : List Component → String → String → List Component
  | [], _, _ => []
  | c :: rest, name, conn =>
    if c.name == name then
      { c with connections := some ((c.connections.getD []) ++ [conn]) } :: rest
    else c :: pushConnection rest name conn

/-- Modelled from the spec: the azure-hosted component kinds (the
`AzureResources` list of common/projectSettingsHelperV3.ts is not in the
corpus); used by the downgrade to pick the legacy `hostType`. -/
def AzureResourcesV3 : List String :=
  [ComponentNames.APIM, ComponentNames.AzureWebApp, ComponentNames.Function,
   ComponentNames.Identity, ComponentNames.KeyVault, ComponentNames.AzureSQL,
   ComponentNames.AzureStorage, ComponentNames.BotService]

/-- Modelled from the spec: `hasAzureResourceV3` — whether the component
graph contains an azure-hosted resource. -/
def hasAzureResourceV3 (s : ProjectSettings) : Bool :=
  (s.components.getD []).any (fun c => AzureResourcesV3.contains c.name)

/-- Modelled from the spec: `ensureComponentConnections` (component/utils.ts
is not in the corpus): rewrites the `connections` edges of the hosting-type
components (web app, function, APIM) to the declared dependency lists
filtered down to components present in the graph (§3: "connections (edges to
other components it depends on)"). -/
def ensureComponentConnections (cs : List Component) : List Component :=
  let names := cs.map (fun c => c.name)
  let hostingDeps : List String :=
    [ComponentNames.Identity, ComponentNames.AzureSQL, ComponentNames.KeyVault,
     ComponentNames.AadApp, ComponentNames.TeamsTab, ComponentNames.TeamsBot,
     ComponentNames.TeamsApi].filter (fun n => names.contains n)
  let apimDeps : List String :=
    [ComponentNames.TeamsTab, ComponentNames.TeamsApi].filter (fun n => names.contains n)
  cs.map (fun c =>
    if c.name == ComponentNames.AzureWebApp || c.name == ComponentNames.Function then
      { c with connections := some hostingDeps }
    else if c.name == ComponentNames.APIM then
      { c with connections := some apimDeps }
    else c)

/-- The body of `convertProjectSettingsV2ToV3` that builds the fresh
`components` array from the legacy settings (lines 171-320 of migrate.ts);
reads only the legacy fields of `s`, never `s.components`. -/
def buildComponentsV3 (s : ProjectSettings) (ss : SolutionSettings) : List Component :=
  let isVS := isVSProject s
  let cs : List Component := []
  -- fx-resource-aad-app-for-teams
  let cs := if ss.activeResourcePlugins.contains "fx-resource-aad-app-for-teams" then
      cs ++ [{ name := ComponentNames.AadApp, provision := some true }] else cs
  -- fx-resource-frontend-hosting
  let cs := if ss.activeResourcePlugins.contains "fx-resource-frontend-hosting" then
      let hostingComponent := if isVS then ComponentNames.AzureWebApp else ComponentNames.AzureStorage
      let teamsTab : Component :=
        if isVS then
          { name := "teams-tab", hosting := some hostingComponent, build := some true,
            provision := some false, folder := some "",
            artifactFolder := some "bin\\Release\\net6.0\\win-x86\\publish",
            sso := some (ss.capabilities.contains "TabSSO") }
        else
          { name := "teams-tab", hosting := some hostingComponent, build := some true,
            provision := some true, folder := some "tabs",
            sso := some (ss.capabilities.contains "TabSSO") }
      let cs := cs ++ [teamsTab]
      match findComponent cs hostingComponent with
      | some _ => pushConnection cs hostingComponent "teams-tab"
      | none => cs ++ [{ name := hostingComponent, connections := some ["teams-tab"],
                         provision := some true }]
    else cs
  -- fx-resource-spfx
  let cs := if ss.activeResourcePlugins.contains "fx-resource-spfx" then
      cs ++ [{ name := "teams-tab", hosting := some "spfx", build := some true,
               provision := some true, folder := some "SPFx" },
             { name := "spfx", provision := some true }]
    else cs
  -- fx-resource-bot
  let cs := if ss.activeResourcePlugins.contains "fx-resource-bot" then
      let hostType := s.botPluginSettings.bind (fun b => b.hostType)
      let botCapabilities0 := s.botPluginSettings.bind (fun b => b.capabilities)
      let botCapabilities :=
        if ss.capabilities.contains MessageExtensionNewUIItemId
            && !((botCapabilities0.getD []).contains "message-extension") then
          some ((botCapabilities0.getD []) ++ ["message-extension"])
        else botCapabilities0
      let isHostingFunction := hostType == some "azure-functions"
      let hostingComponent :=
        if isHostingFunction then ComponentNames.Function else ComponentNames.AzureWebApp
      let teamsBot : Component :=
        if isVS then
          { name := "teams-bot", hosting := some hostingComponent, build := some true,
            folder := some "",
            artifactFolder := some "bin\\Release\\net6.0\\win-x86\\publish",
            capabilities := botCapabilities,
            sso := some (ss.capabilities.contains "BotSSO") }
        else
          { name := "teams-bot", hosting := some hostingComponent, build := some true,
            provision := some true, folder := some "bot",
            capabilities := botCapabilities,
            sso := some (ss.capabilities.contains "BotSSO") }
      let cs := cs ++ [teamsBot]
      let cs := match findComponent cs hostingComponent with
        | some _ => pushConnection cs hostingComponent "teams-bot"
        | none => cs ++ [{ name := hostingComponent, connections := some ["teams-bot"],
                           provision := some true, scenario := some "Bot" }]
      cs ++ [{ name := ComponentNames.BotService, provision := some true }]
    else cs
  -- fx-resource-identity
  let cs := if ss.activeResourcePlugins.contains "fx-resource-identity" then
      cs ++ [{ name := ComponentNames.Identity }] else cs
  -- fx-resource-key-vault
  let cs := if ss.activeResourcePlugins.contains "fx-resource-key-vault" then
      cs ++ [{ name := ComponentNames.KeyVault }] else cs
  -- fx-resource-azure-sql
  let cs := if ss.activeResourcePlugins.contains "fx-resource-azure-sql" then
      cs ++ [{ name := ComponentNames.AzureSQL, provision := some true }] else cs
  -- fx-resource-apim
  let cs := if ss.activeResourcePlugins.contains "fx-resource-apim" then
      cs ++ [{ name := ComponentNames.APIM, provision := some true }] else cs
  -- fx-resource-function
  let cs := if ss.activeResourcePlugins.contains "fx-resource-function" then
      cs ++ [{ name := ComponentNames.TeamsApi, hosting := some ComponentNames.Function,
               functionNames := some [strOr s.defaultFunctionName "getUserProfile"],
               build := some true, folder := some "api" },
             { name := ComponentNames.Function, scenario := some "Api" }]
    else cs
  ensureComponentConnections cs

/-- `convertProjectSettingsV2ToV3`: upgrade of the legacy "plugin list" shape
to the "component graph" shape. The body runs only when `solutionSettings`
is present and `components` is absent or empty; otherwise the (cloned) input
is returned unchanged. -/
def convertProjectSettingsV2ToV3 (s : ProjectSettings) : ProjectSettings :=
  match s.solutionSettings, (s.components.getD []).isEmpty with
  | some ss, true => { s with components := some (buildComponentsV3 s ss) }
  | _, _ => s

/-- `convertProjectSettingsV3ToV2`: downgrade of the component graph back to
the legacy shape; rebuilds `solutionSettings` from the graph and leaves
`components` in place. -/
def convertProjectSettingsV3ToV2 (s : ProjectSettings) : ProjectSettings :=
  let cs := s.components.getD []
  if cs.length > 0 then
    let hostType := if hasAzureResourceV3 s then "Azure" else "SPFx"
    let plugins := ["fx-resource-local-debug", "fx-resource-appstudio", "fx-resource-cicd"]
    let plugins := if hostType == "Azure" then plugins ++ ["fx-resource-api-connector"]
      else plugins
    let caps : List String := []
    let azRes : List String := []
    let plugins := if (findComponent cs ComponentNames.AadApp).isSome then
        plugins ++ ["fx-resource-aad-app-for-teams"] else plugins
    -- teams-tab
    let teamsTab := findComponent cs ComponentNames.TeamsTab
    let caps := match teamsTab with
      | some tab =>
        let caps := caps ++ ["Tab"]
        if tab.sso == some true then caps ++ ["TabSSO"] else caps
      | none => caps
    let plugins := match teamsTab with
      | some tab =>
        if tab.hosting == some "spfx" then plugins ++ ["fx-resource-spfx"]
        else plugins ++ ["fx-resource-frontend-hosting"]
      | none => plugins
    -- teams-bot
    let teamsBot := findComponent cs ComponentNames.TeamsBot
    let botCapabilities := teamsBot.bind (fun b => b.capabilities)
    let caps := match teamsBot with
      | some bot =>
        let caps :=
          if (botCapabilities.getD []).contains "bot"
              || (botCapabilities.getD []).contains "notification"
              || (botCapabilities.getD []).contains "command-response" then
            let caps := caps ++ ["Bot"]
            if bot.sso == some true then caps ++ ["BotSSO"] else caps
          else caps
        if (botCapabilities.getD []).contains "message-extension"
            && !(caps.contains MessageExtensionNewUIItemId) then
          caps ++ [MessageExtensionNewUIItemId]
        else caps
      | none => caps
    let plugins := if teamsBot.isSome then plugins ++ ["fx-resource-bot"] else plugins
    let botPS : Option BotPluginSettings := match teamsBot with
      | some bot =>
        some { hostType := some (if bot.hosting == some ComponentNames.AzureWebApp
                 then "app-service" else "azure-function"),
               capabilities := botCapabilities }
      | none => s.botPluginSettings
    -- identity / key vault / sql / apim
    let plugins := if (findComponent cs ComponentNames.Identity).isSome then
        plugins ++ ["fx-resource-identity"] else plugins
    let plugins := if (findComponent cs ComponentNames.KeyVault).isSome then
        plugins ++ ["fx-resource-key-vault"] else plugins
    let azRes := if (findComponent cs ComponentNames.KeyVault).isSome then
        azRes ++ ["keyvault"] else azRes
    let plugins := if (findComponent cs ComponentNames.AzureSQL).isSome then
        plugins ++ ["fx-resource-azure-sql"] else plugins
    let azRes := if (findComponent cs ComponentNames.AzureSQL).isSome then
        azRes ++ ["sql"] else azRes
    let plugins := if (findComponent cs ComponentNames.APIM).isSome then
        plugins ++ ["fx-resource-apim"] else plugins
    let azRes := if (findComponent cs ComponentNames.APIM).isSome then
        azRes ++ ["apim"] else azRes
    -- teams-api
    let teamsApi := findComponent cs ComponentNames.TeamsApi
    let plugins := if teamsApi.isSome then plugins ++ ["fx-resource-function"] else plugins
    let dfn := match teamsApi with
      | some api =>
        some (match api.functionNames with
          | some (n :: _) => n
          | _ => "getUserProfile")
      | none => s.defaultFunctionName
    let azRes := if teamsApi.isSome then azRes ++ ["function"] else azRes
    { s with
      solutionSettings := some
        { name := "fx-solution-azure", version := "1.0.0", hostType := hostType,
          azureResources := azRes, capabilities := caps,
          activeResourcePlugins := plugins },
      botPluginSettings := botPS,
      defaultFunctionName := dfn }
  else s

/-! ### Lemmas about the settings converters -/

theorem buildComponentsV3_components_irrelevant (s : ProjectSettings)
    (ss : SolutionSettings) (x : Option (List Component)) :
    buildComponentsV3 { s with components := x } ss = buildComponentsV3 s ss := rfl

theorem convert_v2_to_v3_of_nonempty (s : ProjectSettings)
    (h : (s.components.getD []).isEmpty = false) :
    convertProjectSettingsV2ToV3 s = s := by
  unfold convertProjectSettingsV2ToV3
  split
  · rename_i heq hempty
    rw [hempty] at h
    exact absurd h (by simp)
  · rfl

theorem convert_v2_to_v3_of_no_solution (s : ProjectSettings)
    (h : s.solutionSettings = none) :
    convertProjectSettingsV2ToV3 s = s := by
  unfold convertProjectSettingsV2ToV3
  split
  · rename_i heq hempty
    rw [h] at heq
    exact absurd heq (by simp)
  · rfl

theorem convert_v2_to_v3_of_run (s : ProjectSettings) (ss : SolutionSettings)
    (hss : s.solutionSettings = some ss)
    (h : (s.components.getD []).isEmpty = true) :
    convertProjectSettingsV2ToV3 s = { s with components := some (buildComponentsV3 s ss) } := by
  unfold convertProjectSettingsV2ToV3
  split
  · rename_i ss' heq hempty
    rw [hss] at heq
    cases heq
    rfl
  · rename_i hnot
    exact (hnot ss hss h).elim

/-- Upgrading twice equals upgrading once (shared helper). -/
theorem convert_v2_to_v3_idem (s : ProjectSettings) :
    convertProjectSettingsV2ToV3 (convertProjectSettingsV2ToV3 s)
      = convertProjectSettingsV2ToV3 s := by
  cases hss : s.solutionSettings with
  | none =>
    rw [convert_v2_to_v3_of_no_solution s hss, convert_v2_to_v3_of_no_solution s hss]
  | some ss =>
    by_cases h : (s.components.getD []).isEmpty
    · rw [convert_v2_to_v3_of_run s ss hss h]
      by_cases hb : (buildComponentsV3 s ss).isEmpty
      · rw [convert_v2_to_v3_of_run _ ss (by simpa using hss) (by simpa using hb)]
        rfl
      · exact convert_v2_to_v3_of_nonempty _ (by simpa using hb)
    · rw [convert_v2_to_v3_of_nonempty s (by simpa using h),
          convert_v2_to_v3_of_nonempty s (by simpa using h)]

theorem convert_v3_to_v2_components (s : ProjectSettings) :
    (convertProjectSettingsV3ToV2 s).components = s.components := by
  unfold convertProjectSettingsV3ToV2
  by_cases h : (s.components.getD []).length > 0 <;> simp [h]

theorem convert_v3_to_v2_of_empty (s : ProjectSettings)
    (h : (s.components.getD []).isEmpty = true) :
    convertProjectSettingsV3ToV2 s = s := by
  have hlen : ¬((s.components.getD []).length > 0) := by
    cases hc : s.components.getD [] with
    | nil => simp
    | cons a l => rw [hc] at h; simp at h
  unfold convertProjectSettingsV3ToV2
  simp [hlen]

/-- Claim C2: for every project settings object `S`, upgrading twice with
`convertProjectSettingsV2ToV3` equals upgrading once — a second upgrade of an
object that already carries a non-empty `components` array changes nothing,
and when the first upgrade produced an empty `components` array the rerun
reproduces exactly the same result. -/
theorem upgrade_idempotent (s : ProjectSettings) :
    convertProjectSettingsV2ToV3 (convertProjectSettingsV2ToV3 s)
      = convertProjectSettingsV2ToV3 s :=
  convert_v2_to_v3_idem s

/-- Claim C3 (counterexample): `upgrade(downgrade(upgrade(x)))` is **not**
equal to `upgrade(x)` as a whole settings object — for a legacy project with
only the identity plugin active, the downgrade rebuilds `solutionSettings`
with the baseline plugins (`fx-resource-local-debug`, …) that the original
legacy object did not list, and a further upgrade keeps that rebuilt
`solutionSettings`. -/
theorem upgrade_downgrade_upgrade_not_identity :
    ¬(convertProjectSettingsV2ToV3 (convertProjectSettingsV3ToV2
        (convertProjectSettingsV2ToV3
          { appName := "demo", projectId := "proj-id",
            programmingLanguage := some "javascript",
            solutionSettings := some
              { name := "fx-solution-azure", version := "1.0.0", hostType := "Azure",
                azureResources := [], capabilities := [],
                activeResourcePlugins := ["fx-resource-identity"] } }))
      = convertProjectSettingsV2ToV3
          { appName := "demo", projectId := "proj-id",
            programmingLanguage := some "javascript",
            solutionSettings := some
              { name := "fx-solution-azure", version := "1.0.0", hostType := "Azure",
                azureResources := [], capabilities := [],
                activeResourcePlugins := ["fx-resource-identity"] } }) := by
  decide

/-- Claim C3 (amended): the **component graph** survives the round trip — for
every settings object `x`, `upgrade(downgrade(upgrade(x)))` has exactly the
same `components` as `upgrade(x)`; only the rebuilt legacy `solutionSettings`
(and the derived `pluginSettings`/`defaultFunctionName`) may differ. -/
theorem upgrade_downgrade_upgrade_stable (s : ProjectSettings) :
    (convertProjectSettingsV2ToV3 (convertProjectSettingsV3ToV2
        (convertProjectSettingsV2ToV3 s))).components
      = (convertProjectSettingsV2ToV3 s).components := by
  by_cases h : ((convertProjectSettingsV2ToV3 s).components.getD []).isEmpty
  · rw [convert_v3_to_v2_of_empty _ h, convert_v2_to_v3_idem]
  · have hd := convert_v3_to_v2_components (convertProjectSettingsV2ToV3 s)
    have hne : (((convertProjectSettingsV3ToV2
        (convertProjectSettingsV2ToV3 s)).components).getD []).isEmpty = false := by
      rw [hd]; simpa using h
    rw [convert_v2_to_v3_of_nonempty _ hne, hd]

/-! ## Env state schema migration (`component/migrate.ts`) -/

/-- The ten `[pluginName, componentName]` pairs of
`EnvStateMigrationComponentNames` (migrate.ts lines 94-105), in source
order. -/
def EnvStateMigrationComponentNames : List (String × String) :=
  [("solution", "solution"),
   (V1PluginNames.appStudio, ComponentNames.AppManifest),
   (V1PluginNames.identity, ComponentNames.Identity),
   (V1PluginNames.sql, ComponentNames.AzureSQL),
   (V1PluginNames.aad, ComponentNames.AadApp),
   (V1PluginNames.function, ComponentNames.TeamsApi),
   (V1PluginNames.apim, ComponentNames.APIM),
   (V1PluginNames.keyVault, ComponentNames.KeyVault),
   (V1PluginNames.bot, ComponentNames.TeamsBot),
   (V1PluginNames.frontend, ComponentNames.TeamsTab)]

/-- The `plugin2component` map built by `convertEnvStateV2ToV3` (`Map.set`
over the pairs; first components are distinct, so the first match is the map
entry). -/
def plugin2component (p : String) : Option String :=
  (EnvStateMigrationComponentNames.find? (fun e => e.1 == p)).map (fun e => e.2)

/-- The `component2plugin` map built by `convertEnvStateV3ToV2`. -/
def component2plugin (c : String) : Option String :=
  (EnvStateMigrationComponentNames.find? (fun e => e.2 == c)).map (fun e => e.1)

/-- `convertEnvStateV2ToV3`: iterates `Object.keys(envStateV2)` and copies
each entry under its mapped component name; entries whose key has no mapping
are skipped. A JSON object has unique keys, so iterating the entries of the
association list is the iteration over `Object.keys`; values are opaque
(`α`). -/
def convertEnvStateV2ToV3 {α : Type} (envStateV2 : List (String × α)) :
    List (String × α) :=
  envStateV2.filterMap (fun kv => (plugin2component kv.1).map (fun c => (c, kv.2)))

/-- `convertEnvStateV3ToV2`: the mirror conversion keyed on component
names. -/
def convertEnvStateV3ToV2 {α : Type} (envStateV3 : List (String × α)) :
    List (String × α) :=
  envStateV3.filterMap (fun kv => (component2plugin kv.1).map (fun p => (p, kv.2)))

theorem plugin2component_eq_none (k : String)
    (h : (EnvStateMigrationComponentNames.map Prod.fst).contains k = false) :
    plugin2component k = none := by
  unfold plugin2component
  rw [Option.map_eq_none', List.find?_eq_none]
  intro e he hbeq
  have hmem : k ∈ EnvStateMigrationComponentNames.map Prod.fst := by
    rw [← eq_of_beq hbeq]
    exact List.mem_map_of_mem Prod.fst he
  have hc : (EnvStateMigrationComponentNames.map Prod.fst).contains k = true :=
    List.elem_eq_true_of_mem hmem
  rw [h] at hc
  exact Bool.noConfusion hc

theorem component2plugin_eq_none (k : String)
    (h : (EnvStateMigrationComponentNames.map Prod.snd).contains k = false) :
    component2plugin k = none := by
  unfold component2plugin
  rw [Option.map_eq_none', List.find?_eq_none]
  intro e he hbeq
  have hmem : k ∈ EnvStateMigrationComponentNames.map Prod.snd := by
    rw [← eq_of_beq hbeq]
    exact List.mem_map_of_mem Prod.snd he
  have hc : (EnvStateMigrationComponentNames.map Prod.snd).contains k = true :=
    List.elem_eq_true_of_mem hmem
  rw [h] at hc
  exact Bool.noConfusion hc

/-- Claim C10: the env-state converters copy into the output only the state
entries whose key appears in the ten-pair `EnvStateMigrationComponentNames`
mapping — an entry under an unrecognized plugin or component name is
silently dropped (first two conjuncts), a recognized entry is copied under
its mapped name (middle two conjuncts), and every output entry originates
from a mapped input entry (last two conjuncts). -/
theorem env_state_conversion_drops_unknown_keys :
    (∀ (α : Type) (st : List (String × α)) (k : String) (v : α),
      (EnvStateMigrationComponentNames.map Prod.fst).contains k = false →
        convertEnvStateV2ToV3 ((k, v) :: st) = convertEnvStateV2ToV3 st)
  ∧ (∀ (α : Type) (st : List (String × α)) (k : String) (v : α),
      (EnvStateMigrationComponentNames.map Prod.snd).contains k = false →
        convertEnvStateV3ToV2 ((k, v) :: st) = convertEnvStateV3ToV2 st)
  ∧ (∀ (α : Type) (st : List (String × α)) (k c : String) (v : α),
      plugin2component k = some c →
        convertEnvStateV2ToV3 ((k, v) :: st) = (c, v) :: convertEnvStateV2ToV3 st)
  ∧ (∀ (α : Type) (st : List (String × α)) (k p : String) (v : α),
      component2plugin k = some p →
        convertEnvStateV3ToV2 ((k, v) :: st) = (p, v) :: convertEnvStateV3ToV2 st)
  ∧ (∀ (α : Type) (st : List (String × α)) (p : String × α),
      p ∈ convertEnvStateV2ToV3 st →
        ∃ e ∈ EnvStateMigrationComponentNames, p.1 = e.2 ∧ (e.1, p.2) ∈ st)
  ∧ (∀ (α : Type) (st : List (String × α)) (p : String × α),
      p ∈ convertEnvStateV3ToV2 st →
        ∃ e ∈ EnvStateMigrationComponentNames, p.1 = e.1 ∧ (e.2, p.2) ∈ st) := by
  refine ⟨?_, ?_, ?_, ?_, ?_, ?_⟩
  · intro α st k v h
    simp [convertEnvStateV2ToV3, plugin2component_eq_none k h]
  · intro α st k v h
    simp [convertEnvStateV3ToV2, component2plugin_eq_none k h]
  · intro α st k c v h
    simp [convertEnvStateV2ToV3, h]
  · intro α st k p v h
    simp [convertEnvStateV3ToV2, h]
  · intro α st p hp
    rw [convertEnvStateV2ToV3, List.mem_filterMap] at hp
    obtain ⟨kv, hkv, hmap⟩ := hp
    rw [Option.map_eq_some'] at hmap
    obtain ⟨c, hfind, heq⟩ := hmap
    unfold plugin2component at hfind
    rw [Option.map_eq_some'] at hfind
    obtain ⟨e, hfind', heq2⟩ := hfind
    have hmem := List.mem_of_find?_eq_some hfind'
    have hbeq := List.find?_some hfind'
    refine ⟨e, hmem, ?_, ?_⟩
    · rw [← heq, ← heq2]
    · have : e.1 = kv.1 := eq_of_beq hbeq
      rw [this, ← heq]
      exact hkv
  · intro α st p hp
    rw [convertEnvStateV3ToV2, List.mem_filterMap] at hp
    obtain ⟨kv, hkv, hmap⟩ := hp
    rw [Option.map_eq_some'] at hmap
    obtain ⟨c, hfind, heq⟩ := hmap
    unfold component2plugin at hfind
    rw [Option.map_eq_some'] at hfind
    obtain ⟨e, hfind', heq2⟩ := hfind
    have hmem := List.mem_of_find?_eq_some hfind'
    have hbeq := List.find?_some hfind'
    refine ⟨e, hmem, ?_, ?_⟩
    · rw [← heq, ← heq2]
    · have : e.2 = kv.1 := eq_of_beq hbeq
      rw [this, ← heq]
      exact hkv

/-- Claim C10 witness: an env state holding an entry under the unrecognized
key `fx-resource-unknown` converts to the same V3 state as the state without
that entry (the entry is lost), while the `fx-resource-identity` entry is
kept under its mapped name. -/
theorem env_state_conversion_drops_unknown_keys_witness :
    convertEnvStateV2ToV3 [("fx-resource-unknown", "x"), (V1PluginNames.identity, "y")]
      = convertEnvStateV2ToV3 [(V1PluginNames.identity, "y")] :=
  env_state_conversion_drops_unknown_keys.1 String
    [(V1PluginNames.identity, "y")] "fx-resource-unknown" "x" (by decide)

/-! ## Environment info model (`v3.EnvInfoV3`) -/

/-- A subscription as returned by the azure account provider. -/
structure SubscriptionInfo where
  subscriptionId : String
  subscriptionName : String
  tenantId : String
deriving DecidableEq, Repr

/-- The typed `state.solution` object (the fields the reconciler and the
orchestrator read or write; see the `EnvStateV2` interface of migrate.ts). -/
structure SolutionState where
  teamsAppTenantId : Option String := none
  subscriptionId : Option String := none
  subscriptionName : Option String := none
  tenantId : Option String := none
  resourceGroupName : Option String := none
  resourceNameSuffix : Option String := none
  location : Option String := none
  needCreateResourceGroup : Option Bool := none
  provisionSucceeded : Option Bool := none
deriving DecidableEq, Repr

/-- A component's slice of the env state: a bag of string-valued fields. -/
abbrev ComponentState := List (String × String)

/-- `envInfo.state`: the `solution` entry is carried as a typed record (as in
the `EnvStateV2` interface) and `components` holds the remaining
component/plugin-keyed entries of the JSON object. -/
structure EnvState where
  solution : SolutionState := {}
  components : List (String × ComponentState) := []
deriving DecidableEq, Repr

/-- `config.azure` of the per-environment config file (§6). -/
structure EnvConfigAzure where
  subscriptionId : Option String := none
  subscriptionName : Option String := none
  resourceGroupName : Option String := none
  resourceNameSuffix : Option String := none
deriving DecidableEq, Repr

/-- The non-secret, user-editable per-environment config. -/
structure EnvConfig where
  azure : Option EnvConfigAzure := none
deriving DecidableEq, Repr

/-- `v3.EnvInfoV3`. -/
structure EnvInfo where
  envName : String := ""
  config : EnvConfig := {}
  state : EnvState := {}
deriving DecidableEq, Repr

/-- JS object write `l[k] = v` on an association list: replace the binding if
the key is present, else append it. -/
def setEntry {α : Type} : List (String × α) → String → α → List (String × α)
  | [], k, v => [(k, v)]
  | (k', v') :: rest, k, v =>
    if k' == k then (k, v) :: rest else (k', v') :: setEntry rest k v

/-- JS `delete l[k]` on an association list. -/
def removeEntry {α : Type} (l : List (String × α)) (k : String) : List (String × α) :=
  l.filter (fun kv => !(kv.1 == k))

/-! ## Subscription reconciliation (`component/provision.ts`) -/

/-- `updateEnvInfoSubscription`: records the resolved subscription in
`state.solution`. -/
def updateEnvInfoSubscription (env : EnvInfo) (si : SubscriptionInfo) : EnvInfo :=
  { env with state := { env.state with solution := { env.state.solution with
      subscriptionId := some si.subscriptionId,
      subscriptionName := some si.subscriptionName,
      tenantId := some si.tenantId } } }

/-- The `keysToClear` list of `clearEnvInfoStateResource`. -/
def keysToClear : List String :=
  [V1PluginNames.bot, V1PluginNames.frontend, V1PluginNames.function,
   V1PluginNames.identity, V1PluginNames.keyVault, V1PluginNames.sql,
   V1PluginNames.simpleAuth, ComponentNames.TeamsBot, ComponentNames.TeamsTab,
   ComponentNames.TeamsApi, ComponentNames.Identity, ComponentNames.KeyVault,
   ComponentNames.AzureSQL]

/-- The `keysToModify` list of `clearEnvInfoStateResource`. -/
def keysToModify : List String :=
  [V1PluginNames.apim, ComponentNames.APIM]

/-- `clearEnvInfoStateResource`: blanks `solution.resourceGroupName` and
`solution.resourceNameSuffix`, deletes the state entries named in
`keysToClear`, and deletes the `serviceResourceId` field of the entries
named in `keysToModify`. -/
def clearEnvInfoStateResource (env : EnvInfo) : EnvInfo :=
  let sol := { env.state.solution with
    resourceGroupName := some "", resourceNameSuffix := some "" }
  let comps := env.state.components.filterMap (fun kv =>
    if keysToClear.contains kv.1 then none
    else if keysToModify.contains kv.1 then
      some (kv.1, removeEntry kv.2 "serviceResourceId")
    else some kv)
  { env with state := { solution := sol, components := comps } }

/-- `compareWithStateSubscription`: detects subscription drift against the
stored id, records the resolved subscription, and purges resource state on a
switch. Returns the updated env info and `hasSwitchedSubscription`. -/
def compareWithStateSubscription (env : EnvInfo) (target : SubscriptionInfo)
    (subscriptionInStateId : Option String) : EnvInfo × Bool :=
  let hasSwitchedSubscription :=
    truthy subscriptionInStateId && !(subscriptionInStateId == some target.subscriptionId)
  if hasSwitchedSubscription then
    (clearEnvInfoStateResource (updateEnvInfoSubscription env target), true)
  else
    (updateEnvInfoSubscription env target, false)

/-- The responses of the azure account provider consumed by
`checkProvisionSubscriptionWhenSwitchAccountEnabled`. -/
structure SubCheckOracle where
  selectedSubscription : Option SubscriptionInfo
  subscriptions : List SubscriptionInfo
deriving DecidableEq, Repr

/-- `checkProvisionSubscriptionWhenSwitchAccountEnabled`: resolves the target
subscription with precedence config file > account, comparing against the
stored state id; on success returns the updated env info and the
`hasSwitchedSubscription` flag. -/
def checkProvisionSubscriptionWhenSwitchAccountEnabled (o : SubCheckOracle)
    (env : EnvInfo) : Except FxError (EnvInfo × Bool) :=
  let subscriptionIdInConfig := env.config.azure.bind (fun a => a.subscriptionId)
  let subscriptionNameInConfig :=
    jsOr (env.config.azure.bind (fun a => a.subscriptionName)) subscriptionIdInConfig
  let subscriptionIdInState := env.state.solution.subscriptionId
  let subscriptionNameInState :=
    jsOr env.state.solution.subscriptionName subscriptionIdInState
  if !truthy subscriptionIdInState && !truthy subscriptionIdInConfig then
    match o.selectedSubscription with
    | none => .error (userError "core" "SubscriptionNotFound" "Failed to select subscription")
    | some si => .ok (updateEnvInfoSubscription env si, false)
  else if truthy subscriptionIdInConfig then
    match o.subscriptions.find? (fun it => some it.subscriptionId == subscriptionIdInConfig) with
    | none => .error (userError "core" "SubscriptionNotFound"
        ("The subscription '" ++ (subscriptionIdInConfig.getD "") ++ "'("
          ++ (subscriptionNameInConfig.getD "") ++ ") for '" ++ env.envName
          ++ "' environment is not found in the current account, please use the right Azure account or check the '"
          ++ envConfigFileName env.envName ++ "' file."))
    | some target =>
      .ok (compareWithStateSubscription env target subscriptionIdInState)
  else
    let targetStateSubInfo :=
      o.subscriptions.find? (fun it => some it.subscriptionId == subscriptionIdInState)
    match o.selectedSubscription with
    | none =>
      match targetStateSubInfo with
      | some t => .ok (updateEnvInfoSubscription env t, false)
      | none => .error (userError "core" "SubscriptionNotFound"
          ("The subscription '" ++ (subscriptionIdInState.getD "") ++ "'("
            ++ (subscriptionNameInState.getD "") ++ ") for '" ++ env.envName
            ++ "' environment is not found in the current account, please use the right Azure account."))
    | some si =>
      .ok (compareWithStateSubscription env si subscriptionIdInState)

theorem lookup_filterMap_keyed {β : Type} (p m : String → Bool) (t : β → β)
    (l : List (String × β)) (k : String) :
    ((l.filterMap (fun kv =>
        if p kv.1 then none
        else if m kv.1 then some (kv.1, t kv.2) else some kv)).lookup k) =
      (if p k then none
       else if m k then (l.lookup k).map t else l.lookup k) := by
  induction l with
  | nil => simp [List.lookup]
  | cons kv rest ih =>
    obtain ⟨a, b⟩ := kv
    rw [List.filterMap_cons]
    by_cases hk : k = a
    · subst hk
      cases hp : p k with
      | true => simp [hp, ih]
      | false =>
        cases hm : m k with
        | true => simp [hp, hm, List.lookup]
        | false => simp [hp, hm, List.lookup]
    · have hbeq : (k == a) = false := by simp [hk]
      have hlk : List.lookup k ((a, b) :: rest) = List.lookup k rest := by
        simp [List.lookup, hbeq]
      cases hp : p a with
      | true => simp [hp, ih, hlk]
      | false =>
        cases hm : m a with
        | true => simp [hp, hm, List.lookup, hbeq, ih]
        | false => simp [hp, hm, List.lookup, hbeq, ih]

theorem clear_components_lookup (l : List (String × ComponentState)) (k : String) :
    ((l.filterMap (fun kv =>
        if keysToClear.contains kv.1 then none
        else if keysToModify.contains kv.1 then
          some (kv.1, removeEntry kv.2 "serviceResourceId")
        else some kv)).lookup k) =
      (if keysToClear.contains k then none
       else if keysToModify.contains k then
         (l.lookup k).map (fun st => removeEntry st "serviceResourceId")
       else l.lookup k) :=
  lookup_filterMap_keyed (fun s => keysToClear.contains s)
    (fun s => keysToModify.contains s)
    (fun st => removeEntry st "serviceResourceId") l k

/-- Claim C1 (counterexample): on a subscription switch the reconciler does
**not** leave every non-purged state key unchanged — `compareWithStateSubscription`
also rewrites `solution.subscriptionId` (and `subscriptionName`/`tenantId`)
to the newly resolved subscription, so at this concrete input the stored
`solution.subscriptionId` changes from `subA` to `subB` while the claim
asserts it would be untouched. -/
theorem compare_with_state_subscription_changes_subscription :
    ((compareWithStateSubscription
        { envName := "dev",
          state := { solution := { teamsAppTenantId := some "tenantA",
                                   subscriptionId := some "subA" } } }
        { subscriptionId := "subB", subscriptionName := "SubB", tenantId := "tenantA" }
        (some "subA")).2 = true)
  ∧ ¬(((compareWithStateSubscription
        { envName := "dev",
          state := { solution := { teamsAppTenantId := some "tenantA",
                                   subscriptionId := some "subA" } } }
        { subscriptionId := "subB", subscriptionName := "SubB", tenantId := "tenantA" }
        (some "subA")).1.state.solution.subscriptionId) = some "subA") := by
  decide

/-- Claim C1 (amended): when the resolved subscription differs from a
non-empty stored subscription id, `compareWithStateSubscription` returns
`hasSwitchedSubscription = true`, removes exactly the enumerated
Azure-resource component state keys (deleting the `keysToClear` entries and
the `serviceResourceId` field of the APIM entries), blanks
`solution.resourceGroupName` and `solution.resourceNameSuffix`, and updates
`solution.subscriptionId`/`subscriptionName`/`tenantId` to the resolved
subscription; every other key — in particular `solution.teamsAppTenantId` —
is unchanged. -/
theorem compare_with_state_subscription_switch (env : EnvInfo)
    (target : SubscriptionInfo) (sidOpt : Option String)
    (h1 : truthy sidOpt = true)
    (h2 : ¬ sidOpt = some target.subscriptionId) :
    (compareWithStateSubscription env target sidOpt).2 = true
  ∧ (compareWithStateSubscription env target sidOpt).1.state.solution
      = { env.state.solution with
          subscriptionId := some target.subscriptionId,
          subscriptionName := some target.subscriptionName,
          tenantId := some target.tenantId,
          resourceGroupName := some "",
          resourceNameSuffix := some "" }
  ∧ (compareWithStateSubscription env target sidOpt).1.state.solution.teamsAppTenantId
      = env.state.solution.teamsAppTenantId
  ∧ ∀ k, (compareWithStateSubscription env target sidOpt).1.state.components.lookup k
      = (if keysToClear.contains k then none
         else if keysToModify.contains k then
           (env.state.components.lookup k).map (fun st => removeEntry st "serviceResourceId")
         else env.state.components.lookup k) := by
  have hsw : (truthy sidOpt && !(sidOpt == some target.subscriptionId)) = true := by
    rw [h1]
    simpa using h2
  unfold compareWithStateSubscription
  rw [hsw]
  refine ⟨rfl, rfl, rfl, ?_⟩
  intro k
  exact clear_components_lookup env.state.components k

/-- Claim C1 witness: the amended theorem applied at the counterexample's
input — the flag is set, the bot entry is purged, the APIM entry loses only
`serviceResourceId`, and `solution.teamsAppTenantId` survives. -/
theorem compare_with_state_subscription_switch_witness :
    (compareWithStateSubscription
        { envName := "dev",
          state := { solution := { teamsAppTenantId := some "tenantA",
                                   subscriptionId := some "subA" },
                     components := [(V1PluginNames.bot, [("botId", "b1")]),
                                    (V1PluginNames.apim, [("serviceResourceId", "r1"), ("productResourceId", "p1")]),
                                    (V1PluginNames.appStudio, [("teamsAppId", "t1")])] } }
        { subscriptionId := "subB", subscriptionName := "SubB", tenantId := "tenantA" }
        (some "subA")).2 = true
  ∧ (compareWithStateSubscription
        { envName := "dev",
          state := { solution := { teamsAppTenantId := some "tenantA",
                                   subscriptionId := some "subA" },
                     components := [(V1PluginNames.bot, [("botId", "b1")]),
                                    (V1PluginNames.apim, [("serviceResourceId", "r1"), ("productResourceId", "p1")]),
                                    (V1PluginNames.appStudio, [("teamsAppId", "t1")])] } }
        { subscriptionId := "subB", subscriptionName := "SubB", tenantId := "tenantA" }
        (some "subA")).1.state.solution.teamsAppTenantId = some "tenantA" := by
  refine ⟨?_, ?_⟩
  · exact (compare_with_state_subscription_switch _ _ _ (by decide) (by decide)).1
  · exact (compare_with_state_subscription_switch _ _ _ (by decide) (by decide)).2.2.1

/-! ## Resource group resolution (`fillInAzureConfigs`) -/

/-- `ResourceGroupInfo` of ResourceGroupHelper. -/
structure ResourceGroupInfo where
  createNewResourceGroup : Bool
  name : String
  location : String
deriving DecidableEq, Repr

/-- The `CustomizeResourceGroupType` telemetry tag computed by
`fillInAzureConfigs`, recording which precedence source supplied the
resource group. -/
inductive RGSource
  | commandLine
  | envConfig
  | envState
  | interactiveCreateDefault
  | interactiveCreateCustomized
  | interactiveUseExisting
deriving DecidableEq, Repr

/-- Responses of the resource-manager client / interactive UI consumed by
`fillInAzureConfigs` (ResourceGroupHelper is an opaque collaborator). -/
structure RGOracle where
  getResourceGroupInfo : String → Except FxError (Option ResourceGroupInfo)
  checkResourceGroupExistence : String → Except FxError Bool
  askResourceGroupInfo : Except FxError ResourceGroupInfo

/-- Responses of the azure account provider and resource-manager client for
one `fillInAzureConfigs` run. `freshUuid` is the value of
`uuidv4().substr(0, 6)` for this run. -/
structure AzureOracle where
  subCheck : SubCheckOracle
  loggedIn : Bool
  rg : RGOracle
  freshUuid : String
  username : String

/-- `Platform` of the inputs (`Platform.VS` enables creating a new resource
group from caller-supplied name and location). -/
inductive Platform
  | vs
  | vsCode
  | cli
  | other
deriving DecidableEq, Repr

/-- The fields of `Inputs` read by the embedded functions. -/
structure ProvisionInputs where
  projectPath : Option String := none
  env : Option String := none
  envName : String := ""
  platform : Platform := Platform.vsCode
  targetResourceGroupName : Option String := none
  targetResourceLocationName : Option String := none
  isForUT : Bool := false
deriving DecidableEq, Repr

/-- Modelled from the spec: `convertToAlphanumericOnly` (common/utils.ts is
not in the corpus) — strips non-alphanumeric characters from the app name
(§4.4: names are derived deterministically from `(appName, envName)`). -/
def convertToAlphanumericOnly (s : String) : String :=
  String.mk (s.toList.filter Char.isAlphanum)

/-- Modelled from the spec: lodash `snakeCase` (library function) — the §4.4
"lowercasing/snake-casing" of the default resource-group name; modelled as
lowercasing. -/
def snakeCase (s : String) : String :=
  s.toLower

/-- The default resource-group name
`${snakeCase(appName)}${"-" + envInfo.envName}-rg`. -/
def defaultResourceGroupNameOf (appName envName : String) : String :=
  snakeCase (convertToAlphanumericOnly appName) ++ "-" ++ envName ++ "-rg"

/-- Outcome of one `fillInAzureConfigs` run: the `Result` (carrying
`hasSwitchedSubscription` on success), the updated env info, and the
`CustomizeResourceGroupType` telemetry tag when one was recorded. -/
structure FillResult where
  result : Except FxError Bool
  envInfo : EnvInfo
  rgSource : Option RGSource := none
deriving Repr

/-- `fillInAzureConfigs`: checks the subscription (via
`checkProvisionSubscriptionWhenSwitchAccountEnabled`), requires a signed-in
azure account, resolves the resource group with precedence caller input >
env config > env state > interactive prompt, writes the resolved group and
the resource-name suffix into `state.solution`, and reports
`hasSwitchedSubscription`. `appName` stands for `ctx.projectSetting.appName`. -/
def fillInAzureConfigs (o : AzureOracle) (inputs : ProvisionInputs)
    (appName : String) (env : EnvInfo) : FillResult :=
  match checkProvisionSubscriptionWhenSwitchAccountEnabled o.subCheck env with
  | .error e => { result := .error e, envInfo := env }
  | .ok (env1, hasSwitchedSubscription) =>
    if !o.loggedIn then
      { result := .error (userError "core" "NotLoginToAzure"
          "Login to Azure using the Azure Account extension"),
        envInfo := env1 }
    else
      let resourceGroupNameFromEnvConfig := env1.config.azure.bind (fun a => a.resourceGroupName)
      let resourceGroupNameFromState := env1.state.solution.resourceGroupName
      let resourceGroupLocationFromState := env1.state.solution.location
      let defaultResourceGroupName := defaultResourceGroupNameOf appName env1.envName
      let resolved : Except FxError (ResourceGroupInfo × Option RGSource) :=
        if truthy inputs.targetResourceGroupName then
          let tname := inputs.targetResourceGroupName.getD ""
          match o.rg.getResourceGroupInfo tname with
          | .error e =>
            -- support vs to create a new resource group
            if inputs.platform == Platform.vs && truthy inputs.targetResourceLocationName then
              .ok ({ createNewResourceGroup := true, name := tname,
                     location := inputs.targetResourceLocationName.getD "" }, none)
            else .error e
          | .ok none =>
            -- creating a resource group from command line arguments is unsupported
            .error (userError "core" "ResourceGroupNotFound"
              ("Resource group '" ++ tname
                ++ "' does not exist, please specify an existing resource group."))
          | .ok (some rgInfo) => .ok (rgInfo, some RGSource.commandLine)
        else if truthy resourceGroupNameFromEnvConfig then
          let resourceGroupName := resourceGroupNameFromEnvConfig.getD ""
          match o.rg.getResourceGroupInfo resourceGroupName with
          | .error e => .error e
          | .ok none =>
            -- creating a resource group from the input config is unsupported
            .error (userError "core" "ResourceGroupNotFound"
              ("Resource group '" ++ resourceGroupName
                ++ "' does not exist, please check your '"
                ++ envConfigFileName inputs.envName ++ "' file."))
          | .ok (some rgInfo) => .ok (rgInfo, some RGSource.envConfig)
        else if truthy resourceGroupNameFromState && truthy resourceGroupLocationFromState then
          match o.rg.checkResourceGroupExistence (resourceGroupNameFromState.getD "") with
          | .error e => .error e
          | .ok exist =>
            .ok ({ createNewResourceGroup := !exist,
                   name := resourceGroupNameFromState.getD "",
                   location := resourceGroupLocationFromState.getD "" },
                 some RGSource.envState)
        else
          match o.rg.askResourceGroupInfo with
          | .error e => .error e
          | .ok rgInfo =>
            let tag :=
              if rgInfo.createNewResourceGroup then
                if rgInfo.name == defaultResourceGroupName then
                  RGSource.interactiveCreateDefault
                else RGSource.interactiveCreateCustomized
              else RGSource.interactiveUseExisting
            .ok (rgInfo, some tag)
      match resolved with
      | .error e => { result := .error e, envInfo := env1 }
      | .ok (rgInfo, tag) =>
        let sol2 := { env1.state.solution with
          needCreateResourceGroup := some rgInfo.createNewResourceGroup,
          resourceGroupName := some rgInfo.name,
          location := some rgInfo.location }
        let resourceNameSuffix :=
          strOr (env1.config.azure.bind (fun a => a.resourceNameSuffix))
            (strOr sol2.resourceNameSuffix o.freshUuid)
        let sol3 := { sol2 with resourceNameSuffix := some resourceNameSuffix }
        { result := .ok hasSwitchedSubscription,
          envInfo := { env1 with state := { env1.state with solution := sol3 } },
          rgSource := tag }

theorem some_getD_of_truthy (a : Option String) (h : truthy a = true) :
    some (a.getD "") = a := by
  cases a with
  | none => simp [truthy] at h
  | some s => rfl

theorem strOr_of_truthy (a : Option String) (d : String) (h : truthy a = true) :
    some (strOr a d) = a := by
  cases a with
  | none => simp [truthy] at h
  | some s =>
    have : (s == "") = false := by simpa [truthy] using h
    simp [strOr, this]

theorem strOr_of_falsy (a : Option String) (d : String) (h : truthy a = false) :
    strOr a d = d := by
  cases a with
  | none => rfl
  | some s =>
    have : (s == "") = true := by simpa [truthy] using h
    simp [strOr, this]

/-- Claim C5: `fillInAzureConfigs` resolves the target resource group by
strict precedence — (a) a truthy caller-supplied `targetResourceGroupName`
(validated through the resource-manager client, recorded as the
`CommandLine` telemetry source); (b) else a truthy
`config.azure.resourceGroupName`, where a config group that does not exist
yields a `ResourceGroupNotFound` user error instead of falling through; (c)
else the state-stored name + location, re-validated for existence; (d) else
the interactive prompt. -/
theorem fillInAzureConfigs_rg_precedence (o : AzureOracle)
    (inputs : ProvisionInputs) (appName : String) (env env1 : EnvInfo) (sw : Bool)
    (h1 : checkProvisionSubscriptionWhenSwitchAccountEnabled o.subCheck env
        = .ok (env1, sw))
    (h2 : o.loggedIn = true) :
    (∀ rgInfo : ResourceGroupInfo,
      truthy inputs.targetResourceGroupName = true →
      o.rg.getResourceGroupInfo (inputs.targetResourceGroupName.getD "")
          = .ok (some rgInfo) →
        (fillInAzureConfigs o inputs appName env).rgSource = some RGSource.commandLine
        ∧ (fillInAzureConfigs o inputs appName env).envInfo.state.solution.resourceGroupName
            = some rgInfo.name
        ∧ (fillInAzureConfigs o inputs appName env).result = .ok sw)
  ∧ (truthy inputs.targetResourceGroupName = false →
      truthy (env1.config.azure.bind (fun a => a.resourceGroupName)) = true →
      o.rg.getResourceGroupInfo
          ((env1.config.azure.bind (fun a => a.resourceGroupName)).getD "") = .ok none →
        (fillInAzureConfigs o inputs appName env).result
          = .error (userError "core" "ResourceGroupNotFound"
              ("Resource group '"
                ++ ((env1.config.azure.bind (fun a => a.resourceGroupName)).getD "")
                ++ "' does not exist, please check your '"
                ++ envConfigFileName inputs.envName ++ "' file.")))
  ∧ (∀ exist : Bool,
      truthy inputs.targetResourceGroupName = false →
      truthy (env1.config.azure.bind (fun a => a.resourceGroupName)) = false →
      truthy env1.state.solution.resourceGroupName = true →
      truthy env1.state.solution.location = true →
      o.rg.checkResourceGroupExistence (env1.state.solution.resourceGroupName.getD "")
          = .ok exist →
        (fillInAzureConfigs o inputs appName env).rgSource = some RGSource.envState
        ∧ (fillInAzureConfigs o inputs appName env).envInfo.state.solution.resourceGroupName
            = env1.state.solution.resourceGroupName
        ∧ (fillInAzureConfigs o inputs appName env).envInfo.state.solution.needCreateResourceGroup
            = some (!exist)
        ∧ (fillInAzureConfigs o inputs appName env).result = .ok sw)
  ∧ (∀ rgInfo : ResourceGroupInfo,
      truthy inputs.targetResourceGroupName = false →
      truthy (env1.config.azure.bind (fun a => a.resourceGroupName)) = false →
      (truthy env1.state.solution.resourceGroupName = false
        ∨ truthy env1.state.solution.location = false) →
      o.rg.askResourceGroupInfo = .ok rgInfo →
        (fillInAzureConfigs o inputs appName env).rgSource
          = some (if rgInfo.createNewResourceGroup then
                    if rgInfo.name == defaultResourceGroupNameOf appName env1.envName then
                      RGSource.interactiveCreateDefault
                    else RGSource.interactiveCreateCustomized
                  else RGSource.interactiveUseExisting)
        ∧ (fillInAzureConfigs o inputs appName env).result = .ok sw) := by
  refine ⟨?_, ?_, ?_, ?_⟩
  · intro rgInfo hta hrg
    unfold fillInAzureConfigs
    rw [h1, h2]
    simp only [Bool.not_true, Bool.false_eq_true, if_false, hta, if_true, hrg]
    exact ⟨trivial, trivial, trivial⟩
  · intro hta hcfg hrg
    unfold fillInAzureConfigs
    rw [h1, h2]
    simp only [Bool.not_true, Bool.false_eq_true, if_false, hta, hcfg, if_true, hrg]
  · intro exist hta hcfg hst hloc hchk
    unfold fillInAzureConfigs
    rw [h1, h2]
    simp only [Bool.not_true, Bool.false_eq_true, if_false, hta, hcfg, hst, hloc,
      Bool.and_self, if_true, hchk]
    exact ⟨trivial, some_getD_of_truthy _ hst, trivial, trivial⟩
  · intro rgInfo hta hcfg hor hask
    unfold fillInAzureConfigs
    rw [h1, h2]
    rcases hor with hst | hloc
    · simp only [Bool.not_true, Bool.false_eq_true, if_false, hta, hcfg, hst,
        Bool.false_and, if_true, hask]
      exact ⟨trivial, trivial⟩
    · simp only [Bool.not_true, Bool.false_eq_true, if_false, hta, hcfg, hloc,
        Bool.and_false, if_true, hask]
      exact ⟨trivial, trivial⟩

/-- Claim C5 witness: with a config file naming the resource group
`rg-missing` that the resource-manager client reports as non-existent, the
run fails with the `ResourceGroupNotFound` user error naming the config
file — it is not silently ignored. -/
theorem fillInAzureConfigs_rg_precedence_witness :
    (fillInAzureConfigs
        { subCheck :=
            { selectedSubscription := some ⟨"s1", "S1", "t1"⟩,
              subscriptions := [] },
          loggedIn := true,
          rg := { getResourceGroupInfo := fun _ => .ok none,
                  checkResourceGroupExistence := fun _ => .ok true,
                  askResourceGroupInfo := .ok ⟨true, "x", "loc"⟩ },
          freshUuid := "abc123", username := "user" }
        { envName := "dev" } "My App"
        { envName := "dev",
          config := { azure := some { resourceGroupName := some "rg-missing" } } }).result
      = .error (userError "core" "ResourceGroupNotFound"
          "Resource group 'rg-missing' does not exist, please check your 'config.dev.json' file.") := by
  exact (fillInAzureConfigs_rg_precedence
      { subCheck :=
          { selectedSubscription := some ⟨"s1", "S1", "t1"⟩,
            subscriptions := [] },
        loggedIn := true,
        rg := { getResourceGroupInfo := fun _ => .ok none,
                checkResourceGroupExistence := fun _ => .ok true,
                askResourceGroupInfo := .ok ⟨true, "x", "loc"⟩ },
        freshUuid := "abc123", username := "user" }
      { envName := "dev" } "My App"
      { envName := "dev",
        config := { azure := some { resourceGroupName := some "rg-missing" } } }
      (updateEnvInfoSubscription
        { envName := "dev",
          config := { azure := some { resourceGroupName := some "rg-missing" } } }
        ⟨"s1", "S1", "t1"⟩)
      false rfl rfl).2.1 (by decide) (by decide) rfl

theorem compare_snd_false (env : EnvInfo) (t : SubscriptionInfo)
    (sid : Option String)
    (h : (compareWithStateSubscription env t sid).2 = false) :
    (compareWithStateSubscription env t sid).1 = updateEnvInfoSubscription env t := by
  by_cases hb : (truthy sid && !(sid == some t.subscriptionId)) = true
  · simp [compareWithStateSubscription, hb] at h
  · simp [compareWithStateSubscription, hb]

/-- Claim C8 (counterexample): the suffix is **not** kept whenever
`envInfo.state.solution.resourceNameSuffix` is already set — on a run whose
resolved subscription differs from the stored one, the reconciler blanks the
stored suffix (`oldsuf`), so `fillInAzureConfigs` mints a fresh one
(`f0f0f0`) even though the state suffix was set and the config suffix was
absent when the run started. -/
theorem fillInAzureConfigs_suffix_reminted_on_switch :
    ((fillInAzureConfigs
        { subCheck :=
            { selectedSubscription := some ⟨"subB", "B", "t1"⟩,
              subscriptions := [⟨"subB", "B", "t1"⟩] },
          loggedIn := true,
          rg := { getResourceGroupInfo := fun _ => .ok none,
                  checkResourceGroupExistence := fun _ => .ok true,
                  askResourceGroupInfo := .ok ⟨false, "rg-two", "eastus"⟩ },
          freshUuid := "f0f0f0", username := "user" }
        { envName := "dev" } "app"
        { envName := "dev",
          state := { solution := { subscriptionId := some "subA",
                                   subscriptionName := some "A",
                                   resourceNameSuffix := some "oldsuf",
                                   resourceGroupName := some "rgA",
                                   location := some "westus" } } }).result = .ok true)
  ∧ ((fillInAzureConfigs
        { subCheck :=
            { selectedSubscription := some ⟨"subB", "B", "t1"⟩,
              subscriptions := [⟨"subB", "B", "t1"⟩] },
          loggedIn := true,
          rg := { getResourceGroupInfo := fun _ => .ok none,
                  checkResourceGroupExistence := fun _ => .ok true,
                  askResourceGroupInfo := .ok ⟨false, "rg-two", "eastus"⟩ },
          freshUuid := "f0f0f0", username := "user" }
        { envName := "dev" } "app"
        { envName := "dev",
          state := { solution := { subscriptionId := some "subA",
                                   subscriptionName := some "A",
                                   resourceNameSuffix := some "oldsuf",
                                   resourceGroupName := some "rgA",
                                   location := some "westus" } } }).envInfo.config.azure = none)
  ∧ ((fillInAzureConfigs
        { subCheck :=
            { selectedSubscription := some ⟨"subB", "B", "t1"⟩,
              subscriptions := [⟨"subB", "B", "t1"⟩] },
          loggedIn := true,
          rg := { getResourceGroupInfo := fun _ => .ok none,
                  checkResourceGroupExistence := fun _ => .ok true,
                  askResourceGroupInfo := .ok ⟨false, "rg-two", "eastus"⟩ },
          freshUuid := "f0f0f0", username := "user" }
        { envName := "dev" } "app"
        { envName := "dev",
          state := { solution := { subscriptionId := some "subA",
                                   subscriptionName := some "A",
                                   resourceNameSuffix := some "oldsuf",
                                   resourceGroupName := some "rgA",
                                   location := some "westus" } } }).envInfo.state.solution.resourceNameSuffix
      = some "f0f0f0")
  ∧ ¬((fillInAzureConfigs
        { subCheck :=
            { selectedSubscription := some ⟨"subB", "B", "t1"⟩,
              subscriptions := [⟨"subB", "B", "t1"⟩] },
          loggedIn := true,
          rg := { getResourceGroupInfo := fun _ => .ok none,
                  checkResourceGroupExistence := fun _ => .ok true,
                  askResourceGroupInfo := .ok ⟨false, "rg-two", "eastus"⟩ },
          freshUuid := "f0f0f0", username := "user" }
        { envName := "dev" } "app"
        { envName := "dev",
          state := { solution := { subscriptionId := some "subA",
                                   subscriptionName := some "A",
                                   resourceNameSuffix := some "oldsuf",
                                   resourceGroupName := some "rgA",
                                   location := some "westus" } } }).envInfo.state.solution.resourceNameSuffix
      = some "oldsuf") :=
  ⟨rfl, rfl, rfl, by decide⟩

/-- Claim C8 (amended): the suffix is minted at most once per environment
**as long as the subscription does not switch** — on a no-switch run the
reconciler preserves the stored suffix; then, whenever
`config.azure.resourceNameSuffix` is truthy it is used, else a truthy
(post-reconciliation) state suffix is kept unchanged, and only when both are
absent (including when a subscription switch just blanked the stored one) is
the fresh `uuidv4().substr(0, 6)` value written. -/
theorem fillInAzureConfigs_suffix_policy (o : AzureOracle)
    (inputs : ProvisionInputs) (appName : String) (env env1 : EnvInfo) (sw : Bool)
    (h1 : checkProvisionSubscriptionWhenSwitchAccountEnabled o.subCheck env
        = .ok (env1, sw))
    (h2 : o.loggedIn = true) :
    (sw = false →
      env1.state.solution.resourceNameSuffix = env.state.solution.resourceNameSuffix)
  ∧ (∀ b : Bool,
      truthy (env1.config.azure.bind (fun a => a.resourceNameSuffix)) = true →
      (fillInAzureConfigs o inputs appName env).result = .ok b →
        some ((fillInAzureConfigs o inputs appName env).envInfo.state.solution.resourceNameSuffix.getD "")
          = env1.config.azure.bind (fun a => a.resourceNameSuffix))
  ∧ (∀ b : Bool,
      truthy (env1.config.azure.bind (fun a => a.resourceNameSuffix)) = false →
      truthy env1.state.solution.resourceNameSuffix = true →
      (fillInAzureConfigs o inputs appName env).result = .ok b →
        some ((fillInAzureConfigs o inputs appName env).envInfo.state.solution.resourceNameSuffix.getD "")
          = env1.state.solution.resourceNameSuffix)
  ∧ (∀ b : Bool,
      truthy (env1.config.azure.bind (fun a => a.resourceNameSuffix)) = false →
      truthy env1.state.solution.resourceNameSuffix = false →
      (fillInAzureConfigs o inputs appName env).result = .ok b →
        (fillInAzureConfigs o inputs appName env).envInfo.state.solution.resourceNameSuffix
          = some o.freshUuid) := by
  refine ⟨?_, ?_, ?_, ?_⟩
  · intro hsw
    subst hsw
    simp only [checkProvisionSubscriptionWhenSwitchAccountEnabled] at h1
    by_cases hc1 : (!truthy env.state.solution.subscriptionId
        && !truthy (env.config.azure.bind fun a => a.subscriptionId)) = true
    · rw [if_pos hc1] at h1
      cases hsel : o.subCheck.selectedSubscription with
      | none => rw [hsel] at h1; simp at h1
      | some si =>
        rw [hsel] at h1
        simp only [Except.ok.injEq, Prod.mk.injEq] at h1
        rw [← h1.1]
        rfl
    · rw [if_neg hc1] at h1
      by_cases hc2 : truthy (env.config.azure.bind fun a => a.subscriptionId) = true
      · rw [if_pos hc2] at h1
        cases hfind : o.subCheck.subscriptions.find?
            (fun it => some it.subscriptionId == env.config.azure.bind fun a => a.subscriptionId) with
        | none => rw [hfind] at h1; simp at h1
        | some target =>
          rw [hfind] at h1
          simp only [Except.ok.injEq] at h1
          have hsnd : (compareWithStateSubscription env target
              env.state.solution.subscriptionId).2 = false := by rw [h1]
          have hfst := compare_snd_false env target env.state.solution.subscriptionId hsnd
          have henv : env1 = updateEnvInfoSubscription env target := by
            rw [← hfst, h1]
          rw [henv]
          rfl
      · rw [if_neg hc2] at h1
        cases hsel : o.subCheck.selectedSubscription with
        | none =>
          rw [hsel] at h1
          cases hfind : o.subCheck.subscriptions.find?
              (fun it => some it.subscriptionId == env.state.solution.subscriptionId) with
          | none => rw [hfind] at h1; simp at h1
          | some t =>
            rw [hfind] at h1
            simp only [Except.ok.injEq, Prod.mk.injEq] at h1
            rw [← h1.1]
            rfl
        | some si =>
          rw [hsel] at h1
          simp only [Except.ok.injEq] at h1
          have hsnd : (compareWithStateSubscription env si
              env.state.solution.subscriptionId).2 = false := by rw [h1]
          have hfst := compare_snd_false env si env.state.solution.subscriptionId hsnd
          have henv : env1 = updateEnvInfoSubscription env si := by
            rw [← hfst, h1]
          rw [henv]
          rfl
  · intro b hcfg hok
    unfold fillInAzureConfigs at hok ⊢
    rw [h1, h2] at hok ⊢
    simp only [Bool.not_true, Bool.false_eq_true, if_false] at hok ⊢
    split
    · rename_i e heq
      rw [heq] at hok
      simp at hok
    · exact strOr_of_truthy _ _ hcfg
  · intro b hcfg hst hok
    unfold fillInAzureConfigs at hok ⊢
    rw [h1, h2] at hok ⊢
    simp only [Bool.not_true, Bool.false_eq_true, if_false] at hok ⊢
    split
    · rename_i e heq
      rw [heq] at hok
      simp at hok
    · rw [strOr_of_falsy _ _ hcfg]
      exact strOr_of_truthy _ _ hst
  · intro b hcfg hst hok
    unfold fillInAzureConfigs at hok ⊢
    rw [h1, h2] at hok ⊢
    simp only [Bool.not_true, Bool.false_eq_true, if_false] at hok ⊢
    split
    · rename_i e heq
      rw [heq] at hok
      simp at hok
    · rw [strOr_of_falsy _ _ hcfg, strOr_of_falsy _ _ hst]

/-- Claim C8 witness: on a no-switch re-provision run with the suffix
`oldsuf` stored in state and no config override, the suffix survives
unchanged. -/
theorem fillInAzureConfigs_suffix_policy_witness :
    some ((fillInAzureConfigs
        { subCheck :=
            { selectedSubscription := some ⟨"subA", "A", "t1"⟩,
              subscriptions := [⟨"subA", "A", "t1"⟩] },
          loggedIn := true,
          rg := { getResourceGroupInfo := fun _ => .ok none,
                  checkResourceGroupExistence := fun _ => .ok true,
                  askResourceGroupInfo := .ok ⟨false, "rg-two", "eastus"⟩ },
          freshUuid := "f0f0f0", username := "user" }
        { envName := "dev" } "app"
        { envName := "dev",
          state := { solution := { subscriptionId := some "subA",
                                   subscriptionName := some "A",
                                   resourceNameSuffix := some "oldsuf",
                                   resourceGroupName := some "rgA",
                                   location := some "westus" } } }).envInfo.state.solution.resourceNameSuffix.getD "")
      = some "oldsuf" := by
  exact (fillInAzureConfigs_suffix_policy
      { subCheck :=
          { selectedSubscription := some ⟨"subA", "A", "t1"⟩,
            subscriptions := [⟨"subA", "A", "t1"⟩] },
        loggedIn := true,
        rg := { getResourceGroupInfo := fun _ => .ok none,
                checkResourceGroupExistence := fun _ => .ok true,
                askResourceGroupInfo := .ok ⟨false, "rg-two", "eastus"⟩ },
        freshUuid := "f0f0f0", username := "user" }
      { envName := "dev" } "app"
      { envName := "dev",
        state := { solution := { subscriptionId := some "subA",
                                 subscriptionName := some "A",
                                 resourceNameSuffix := some "oldsuf",
                                 resourceGroupName := some "rgA",
                                 location := some "westus" } } }
      (updateEnvInfoSubscription
        { envName := "dev",
          state := { solution := { subscriptionId := some "subA",
                                   subscriptionName := some "A",
                                   resourceNameSuffix := some "oldsuf",
                                   resourceGroupName := some "rgA",
                                   location := some "westus" } } }
        ⟨"subA", "A", "t1"⟩)
      false rfl rfl).2.2.1 false (by decide) (by decide) rfl

/-! ## Consent dialog (`askForProvisionConsentNew`, v2/provision.ts) -/

/-- `SolutionSource`, the error source of the fx-solution. Modelled from the
spec: the fx-solution `constants.ts` is not in the corpus. -/
def SolutionSource : String := "fx-solution-azure"

/-- The localized `Provision` button text. -/
def provisionText : String := getLocalizedString "core.provision.provision" []

/-- The localized `Learn more` button text. -/
def learnMoreText : String := getLocalizedString "core.provision.learnMore" []

/-- The documentation URL opened by the `Learn more` action. -/
def provisionDocUrl : String :=
  "https://docs.microsoft.com/en-us/microsoftteams/platform/toolkit/provision"

/-- The `do { showMessage … } while (confirm === learnMoreText)` loop of
`askForProvisionConsentNew`. `responses` are the values the user-interaction
surface returns for the successive prompts (`none` models an errored or
missing response); the second component collects the URLs opened by
`openUrl`. Each `Learn more` answer opens the documentation once and loops
back; `Provision` exits with `ok`; any other answer exits with the
`CancelProvision` user error. -/
def consentLoop : List (Option String) → Except FxError Unit × List String
  | [] => (.error (userError SolutionSource "CancelProvision" "CancelProvision"), [])
  | r :: rest =>
    if r == some provisionText then (.ok (), [])
    else if r == some learnMoreText then
      let (res, urls) := consentLoop rest
      (res, provisionDocUrl :: urls)
    else (.error (userError SolutionSource "CancelProvision" "CancelProvision"), [])

/-- `askForProvisionConsentNew`: builds the account summary (switch notice
first, then azure account, subscription and M365 account lines), returns
`ok` with no prompt when there is nothing to confirm, and otherwise runs the
re-prompting consent loop. -/
def askForProvisionConsentNew (username : String) (env : EnvInfo)
    (hasSwitchedM365Tenant hasSwitchedSubscription : Bool)
    (m365AccountName : String) (hasAzureResource : Bool)
    (responses : List (Option String)) : Except FxError Unit × List String :=
  let subscriptionId := (env.state.solution.subscriptionId).getD ""
  let subscriptionName := (env.state.solution.subscriptionName).getD ""
  let m365TenantId := (env.state.solution.teamsAppTenantId).getD ""
  let switchedNotice :=
    if hasSwitchedM365Tenant && hasSwitchedSubscription then
      getLocalizedString "core.provision.switchedM365AccountAndAzureSubscriptionNotice" []
    else if hasSwitchedM365Tenant && !hasSwitchedSubscription then
      getLocalizedString "core.provision.switchedM365AccountNotice" []
    else if !hasSwitchedM365Tenant && hasSwitchedSubscription then
      let base := getLocalizedString "core.provision.switchedAzureSubscriptionNotice" []
      let botResource :=
        match (env.state.components.lookup V1PluginNames.bot) with
        | some st => some st
        | none => env.state.components.lookup ComponentNames.TeamsBot
      let newBotNotice :=
        match botResource with
        | some st =>
          if (st.lookup "resourceId").isSome then
            getLocalizedString "core.provision.createNewAzureBotNotice" []
          else ""
        | none => ""
      base ++ newBotNotice
    else ""
  let azureAccountInfo := getLocalizedString "core.provision.azureAccount" [username]
  let azureSubscriptionInfo := getLocalizedString "core.provision.azureSubscription"
    [if subscriptionName == "" then subscriptionId else subscriptionName]
  let m365AccountInfo := getLocalizedString "core.provision.m365Account"
    [if m365AccountName == "" then m365TenantId else m365AccountName]
  if switchedNotice == "" && !hasAzureResource then
    (.ok (), [])
  else
    let accountsInfo :=
      if switchedNotice == "" then
        String.intercalate "\n" [azureAccountInfo, azureSubscriptionInfo, m365AccountInfo]
      else if hasAzureResource then
        String.intercalate "\n"
          [switchedNotice, azureAccountInfo, azureSubscriptionInfo, m365AccountInfo]
      else String.intercalate "\n" [switchedNotice, m365AccountInfo]
    consentLoop responses

theorem consentLoop_learnMore_then (n : Nat) (rest : List (Option String)) :
    consentLoop (List.replicate n (some learnMoreText) ++ rest)
      = ((consentLoop rest).1,
         List.replicate n provisionDocUrl ++ (consentLoop rest).2) := by
  induction n with
  | zero => simp
  | succ m ih =>
    rw [List.replicate_succ, List.cons_append]
    have hlm : ((some learnMoreText : Option String) == some provisionText) = false := by
      decide
    simp only [consentLoop, hlm, Bool.false_eq_true, if_false, beq_self_eq_true, if_true, ih,
      List.replicate_succ, List.cons_append]

/-- Claim C6: in the provision consent loop, every `Learn more` response
opens the documentation URL exactly once and loops back to re-prompt;
answering `Provision` after `n` `Learn more` responses yields an `ok`
outcome with exactly `n` documentation opens (all of the provision doc
URL); any other response yields the `CancelProvision` user error, an error
value distinct from every other error kind raised in this flow. -/
theorem consent_learn_more_loop (username : String) (env : EnvInfo)
    (hasSwitchedM365Tenant hasSwitchedSubscription : Bool)
    (m365AccountName : String) (n : Nat) (rest : List (Option String)) :
    ((askForProvisionConsentNew username env hasSwitchedM365Tenant
        hasSwitchedSubscription m365AccountName true
        (List.replicate n (some learnMoreText) ++ [some provisionText] ++ rest)).1
      = .ok ()
    ∧ (askForProvisionConsentNew username env hasSwitchedM365Tenant
        hasSwitchedSubscription m365AccountName true
        (List.replicate n (some learnMoreText) ++ [some provisionText] ++ rest)).2
      = List.replicate n provisionDocUrl)
  ∧ (∀ r : Option String, r ≠ some provisionText → r ≠ some learnMoreText →
      (askForProvisionConsentNew username env hasSwitchedM365Tenant
          hasSwitchedSubscription m365AccountName true
          (List.replicate n (some learnMoreText) ++ [r] ++ rest)).1
        = .error (userError SolutionSource "CancelProvision" "CancelProvision")) := by
  have hopen : ∀ (resp : List (Option String)),
      askForProvisionConsentNew username env hasSwitchedM365Tenant
          hasSwitchedSubscription m365AccountName true resp
        = consentLoop resp := by
    intro resp
    unfold askForProvisionConsentNew
    simp [Bool.and_false]
  refine ⟨⟨?_, ?_⟩, ?_⟩
  · rw [hopen, List.append_assoc, consentLoop_learnMore_then]
    simp [consentLoop]
  · rw [hopen, List.append_assoc, consentLoop_learnMore_then]
    simp [consentLoop]
  · intro r hr1 hr2
    rw [hopen, List.append_assoc, consentLoop_learnMore_then]
    have h1 : (r == some provisionText) = false := by
      simpa using hr1
    have h2 : (r == some learnMoreText) = false := by
      simpa using hr2
    simp [consentLoop, h1, h2]

/-- Claim C6 witness: the scenario "Learn more" then "Provision" produces
exactly one documentation open and a proceed outcome, and a decline answer
produces the `CancelProvision` error. -/
theorem consent_learn_more_loop_witness :
    ((askForProvisionConsentNew "user" {} false true "m365user" true
        [some learnMoreText, some provisionText]).1 = .ok ()
    ∧ (askForProvisionConsentNew "user" {} false true "m365user" true
        [some learnMoreText, some provisionText]).2 = [provisionDocUrl])
  ∧ (askForProvisionConsentNew "user" {} false true "m365user" true
        [some learnMoreText, some "Cancel"]).1
      = .error (userError SolutionSource "CancelProvision" "CancelProvision") := by
  refine ⟨⟨?_, ?_⟩, ?_⟩
  · exact (consent_learn_more_loop "user" {} false true "m365user" 1 []).1.1
  · exact (consent_learn_more_loop "user" {} false true "m365user" 1 []).1.2
  · exact (consent_learn_more_loop "user" {} false true "m365user" 1 []).2
      (some "Cancel") (by decide) (by decide)

/-! ## Environment loading (`useUserSetEnv`, core/middleware/envInfoLoader.ts) -/

/-- The set of environments existing on disk for one project, as seen by the
environment manager. -/
structure EnvFS where
  envs : List String
deriving DecidableEq, Repr

/-- Modelled from the spec: `environmentManager.getLocalEnvName()`
(core/environment.ts is not in the corpus) — the distinguished "local"
environment name (§4.1). -/
def getLocalEnvName : String := "local"

/-- Modelled from the spec: `environmentManager.checkEnvExist` — whether the
named environment exists for the project (§4.1 "Missing environment on
read"). -/
def checkEnvExist (fs : EnvFS) (env : String) : Except FxError Bool :=
  .ok (fs.envs.contains env)

/-- Modelled from the spec: `environmentManager.createLocalEnv` — creates the
distinguished "local" environment with empty state (§4.1). -/
def createLocalEnv (fs : EnvFS) : EnvFS :=
  { envs := fs.envs ++ [getLocalEnvName] }

/-- `ProjectEnvNotExistError(env)` (core/error.ts is not in the corpus; the
spec names the reported error `ProjectEnvNotExistError`). -/
def ProjectEnvNotExistError (env : String) : FxError :=
  userError "Core" "ProjectEnvNotExistError"
    ("The environment '" ++ env ++ "' does not exist.")

/-- `useUserSetEnv`: checks that the requested environment exists; a missing
"local" environment is auto-created and re-checked; any other missing
environment is reported as `ProjectEnvNotExistError`. Returns the updated
file-system view and the result. -/
def useUserSetEnv (fs : EnvFS) (env : String) :
    EnvFS × Except FxError String :=
  match checkEnvExist fs env with
  | .error e => (fs, .error e)
  | .ok envExists =>
    if envExists then (fs, .ok env)
    else
      if env == getLocalEnvName then
        let fs2 := createLocalEnv fs
        match checkEnvExist fs2 env with
        | .error e => (fs2, .error e)
        | .ok envExists2 =>
          if envExists2 then (fs2, .ok env)
          else (fs2, .error (ProjectEnvNotExistError env))
      else (fs, .error (ProjectEnvNotExistError env))

/-- Claim C9: loading an environment that does not exist auto-creates it and
proceeds when it is the distinguished "local" environment, and fails with
`ProjectEnvNotExistError` for any other name. -/
theorem useUserSetEnv_missing_env (fs : EnvFS) (env : String)
    (h : fs.envs.contains env = false) :
    (env = getLocalEnvName →
      (useUserSetEnv fs env).2 = .ok env
      ∧ (useUserSetEnv fs env).1.envs.contains env = true)
  ∧ (env ≠ getLocalEnvName →
      (useUserSetEnv fs env).2 = .error (ProjectEnvNotExistError env)
      ∧ (useUserSetEnv fs env).1 = fs) := by
  constructor
  · intro hlocal
    subst hlocal
    have h2 : getLocalEnvName ∈ (createLocalEnv fs).envs := by
      simp [createLocalEnv]
    unfold useUserSetEnv checkEnvExist
    rw [h]
    simp [h2]
  · intro hother
    have hne : (env == getLocalEnvName) = false := by
      simpa using hother
    unfold useUserSetEnv checkEnvExist
    rw [h, hne]
    simp

/-- Claim C9 witness: with only a "dev" environment on disk, loading "local"
auto-creates it and succeeds, while loading "prod" fails with
`ProjectEnvNotExistError`. -/
theorem useUserSetEnv_missing_env_witness :
    ((useUserSetEnv { envs := ["dev"] } "local").2 = .ok "local")
  ∧ ((useUserSetEnv { envs := ["dev"] } "prod").2
      = .error (ProjectEnvNotExistError "prod")) := by
  constructor
  · exact ((useUserSetEnv_missing_env { envs := ["dev"] } "local" (by decide)).1 rfl).1
  · exact ((useUserSetEnv_missing_env { envs := ["dev"] } "prod" (by decide)).2 (by decide)).1

/-! ## Provisioning orchestrator (`provisionResourceImpl`, v2/provision.ts) -/

/-- Field read `envInfo.state[comp][field]`. -/
def getCompField (env : EnvInfo) (comp field : String) : Option String :=
  (env.state.components.lookup comp).bind (fun st => st.lookup field)

/-- `if (!envInfo.state[comp]) envInfo.state[comp] = {}`. -/
def ensureComponent (env : EnvInfo) (comp : String) : EnvInfo :=
  if (env.state.components.lookup comp).isSome then env
  else { env with state := { env.state with
          components := setEntry env.state.components comp [] } }

/-- Field write `envInfo.state[comp][field] = value`. -/
def setCompField (env : EnvInfo) (comp field value : String) : EnvInfo :=
  let st := (env.state.components.lookup comp).getD []
  { env with state := { env.state with
      components := setEntry env.state.components comp (setEntry st field value) } }

/-- Responses of the M365 token provider (`getAccessToken` /
`getJsonObject`); `jsonObject` is `none` when `getJsonObject` does not
return a value, else the `tid` and `upn` fields of the token. -/
structure M365Oracle where
  accessToken : Except FxError Unit
  jsonObject : Option (Option String × Option String)
deriving Repr

/-- `getM365TenantId` (component/provision.ts): triggers the login, reads the
token JSON, and extracts `tid`/`upn`; a missing token is `NoAppStudioToken`
and a falsy or non-string `tid` is `NoTeamsAppTenantId`. -/
def getM365TenantId (o : M365Oracle) : Except FxError (String × String) :=
  match o.accessToken with
  | .error e => .error e
  | .ok _ =>
    match o.jsonObject with
    | none => .error (systemError "core" "NoAppStudioToken"
        (getLocalizedString "error.NoAppStudioToken" []))
    | some (tid, upn) =>
      match tid with
      | none => .error (systemError "core" "NoTeamsAppTenantId"
          (getLocalizedString "error.NoTeamsAppTenantId" []))
      | some t =>
        if t == "" then
          .error (systemError "core" "NoTeamsAppTenantId"
            (getLocalizedString "error.NoTeamsAppTenantId" []))
        else .ok (t, upn.getD "")

/-- Aggregate outcome kinds of the concurrent executor. -/
inductive ExecKind
  | success
  | partialSuccess
  | failure
deriving DecidableEq, Repr

/-- One state-patch application of the executor: a successful plugin writes
its own slice, a failed plugin leaves at most the `{}` initialisation of its
slice performed before its thunk ran. -/
def applyPluginResult (acc : EnvState)
    (t : String × Except FxError ComponentState) : EnvState :=
  match t.2 with
  | .ok patch => { acc with components := setEntry acc.components t.1 patch }
  | .error _ =>
    if (acc.components.lookup t.1).isSome then acc
    else { acc with components := setEntry acc.components t.1 [] }

/-- Modelled from the spec: `executeConcurrently` (v2/executor.ts is not in
the corpus). §4.5: all thunks run and all results are collected; a failure
does not cancel siblings, so every successful plugin's state patch is
applied; the aggregate kind is `success` when no thunk failed, `failure`
when none succeeded, else `partialSuccess`; the first failure is the
representative error (§7). -/
def executeConcurrently (thunks : List (String × Except FxError ComponentState))
    (st : EnvState) : ExecKind × Option FxError × EnvState :=
  let st2 := thunks.foldl applyPluginResult st
  let errs := thunks.filterMap (fun t =>
    match t.2 with | .error e => some e | .ok _ => none)
  let oks := thunks.filter (fun t =>
    match t.2 with | .ok _ => true | .error _ => false)
  let kind :=
    if errs.isEmpty then ExecKind.success
    else if oks.isEmpty then ExecKind.failure
    else ExecKind.partialSuccess
  (kind, errs.head?, st2)

/-- One registered resource plugin: its name and the outcomes of its
optional `provisionResource` / `configureResource` phases (`none` when the
plugin does not implement the phase); a success carries the state patch for
the plugin's own slice (§4.3: a plugin writes only its own slice). -/
structure PluginSpec where
  name : String
  provisionRes : Option (Except FxError ComponentState) := none
  configureRes : Option (Except FxError ComponentState) := none
deriving Repr

/-- The env-state update merged back by `deployArmTemplates` through
`contextAdaptor.getEnvStateJson()` and `_.assign(envInfo.state, update)`: a
shallow merge, optionally replacing the `solution` entry and replacing the
listed component entries. -/
structure ArmPatch where
  solutionPatch : Option SolutionState := none
  componentPatches : List (String × ComponentState) := []
deriving Repr

/-- `_.assign(envInfo.state, update)`. -/
def applyArmPatch (st : EnvState) (p : ArmPatch) : EnvState :=
  { solution := p.solutionPatch.getD st.solution,
    components := p.componentPatches.foldl
      (fun acc kv => setEntry acc kv.1 kv.2) st.components }

/-- Modelled from the spec: the project-shape predicates of
`projectSettingsHelper.ts` (not in the corpus) — `isAzureProject`,
`hasAzureResource`, `hasAAD`, `isExistingTabApp` — as input facts about the
project, plus the app name. -/
structure ProjectFlags where
  isAzureProject : Bool := true
  hasAzureResource : Bool := true
  hasAAD : Bool := false
  isExistingTabApp : Bool := false
  appName : String := ""
deriving DecidableEq, Repr

/-- All collaborator responses of one `provisionResourceImpl` run.
`allowSwitchAccount` is the value of `doesAllowSwitchAccount()` (a feature
flag; core/featureFlags is not in the corpus). `plugins` is the selected
plugin list produced by `getSelectedPlugins` (ResourcePluginContainer is
not in the corpus), already including the app-studio plugin added for an
existing tab app. -/
structure ProvisionOracle where
  m365 : M365Oracle
  allowSwitchAccount : Bool
  azure : AzureOracle
  consentResponses : List (Option String)
  ensurePermissionRequestRes : Except FxError Unit := .ok ()
  createResourceGroupRes : Except FxError Unit := .ok ()
  handleConfigFilesRes : Except FxError Unit := .ok ()
  armDeploy : Except FxError ArmPatch := .ok {}
  aadSetAppInContext : Except FxError Unit := .ok ()
  plugins : List PluginSpec := []

/-- Modelled from the spec: `resetEnvInfoWhenSwitchM365` (component/utils.ts
is not in the corpus) — on a detected M365 tenant switch the tenant-scoped
app registrations recorded in state (Teams app, AAD app) are invalidated so
they are re-created under the new tenant. -/
def resetEnvInfoWhenSwitchM365 (env : EnvInfo) : EnvInfo :=
  let keep := fun (kv : String × ComponentState) =>
    !([V1PluginNames.appStudio, ComponentNames.AppManifest,
       V1PluginNames.aad, ComponentNames.AadApp].contains kv.1)
  { env with state := { env.state with components := env.state.components.filter keep } }

/-- Modelled from the spec: `hasBotServiceCreated` (fx-solution
utils/util.ts is not in the corpus) — whether a bot resource id is already
recorded in state. -/
def hasBotServiceCreated (env : EnvInfo) : Bool :=
  ((env.state.components.lookup V1PluginNames.bot).bind
      (fun st => st.lookup "resourceId")).isSome
  || ((env.state.components.lookup ComponentNames.TeamsBot).bind
      (fun st => st.lookup "resourceId")).isSome

/-- Observable checkpoints of one orchestrator run: the provision phase
start (recording the `provisionSucceeded` value at that moment), the
configure phase start, the write of `provisionSucceeded = true`, and the
call into `fillInAzureConfigs`. -/
inductive PEvent
  | fillAzureConfigs
  | provisionPhase (flagBefore : Option Bool)
  | configurePhase
  | flagSetTrue
deriving DecidableEq, Repr

/-- Outcome of one orchestrator run. -/
structure ProvisionRunResult where
  result : Except FxError Unit
  envInfo : EnvInfo
  events : List PEvent
deriving Repr

/-- The configure phase and the final success marking (lines 360-438):
`configureResource` thunks run concurrently; any failure returns the
aggregate error (leaving `state.solution.provisionSucceeded` as it was);
only on full success is `provisionSucceeded` set to `true`. -/
def configurePhasePart (o : ProvisionOracle) (env : EnvInfo) : ProvisionRunResult :=
  let configureThunks := o.plugins.filterMap
    (fun p => p.configureRes.map (fun r => (p.name, r)))
  let res := executeConcurrently configureThunks env.state
  let env2 := { env with state := res.2.2 }
  if res.1 == ExecKind.failure || res.1 == ExecKind.partialSuccess then
    { result := .error ((res.2.1).getD
        (systemError SolutionSource "InternalError" "configure failed")),
      envInfo := env2, events := [PEvent.configurePhase] }
  else
    { result := .ok (),
      envInfo := { env2 with state := { env2.state with solution :=
        { env2.state.solution with provisionSucceeded := some true } } },
      events := [PEvent.configurePhase, PEvent.flagSetTrue] }

/-- The `aad.setApplicationInContext` user task (lines 341-358), run when the
AAD plugin is among the selected plugins, followed by the configure phase. -/
def aadAndConfigure (o : ProvisionOracle) (env : EnvInfo) : ProvisionRunResult :=
  if o.plugins.any (fun p => p.name == V1PluginNames.aad) then
    match o.aadSetAppInContext with
    | .error e => { result := .error e, envInfo := env, events := [] }
    | .ok _ => configurePhasePart o env
  else configurePhasePart o env

/-- The ARM template deployment (lines 325-338): one atomic step between the
provision and configure phases, run for azure projects outside unit tests;
its output is shallow-merged into the env state. -/
def armAndAfter (o : ProvisionOracle) (flags : ProjectFlags)
    (inputs : ProvisionInputs) (env : EnvInfo) : ProvisionRunResult :=
  if flags.isAzureProject && !inputs.isForUT && flags.hasAzureResource then
    match o.armDeploy with
    | .error e => { result := .error e, envInfo := env, events := [] }
    | .ok patch => aadAndConfigure o { env with state := applyArmPatch env.state patch }
  else aadAndConfigure o env

/-- The provision phase (lines 286-314): the `provisionResource` thunks of
every plugin implementing the phase run concurrently; the event records the
`provisionSucceeded` value at phase start; failure or partial success
aborts the run with the aggregate error, else the ARM/AAD/configure tail
runs. -/
def provisionPhasesCore (o : ProvisionOracle) (flags : ProjectFlags)
    (inputs : ProvisionInputs) (env : EnvInfo) : ProvisionRunResult :=
  let provisionThunks := o.plugins.filterMap
    (fun p => p.provisionRes.map (fun r => (p.name, r)))
  let res := executeConcurrently provisionThunks env.state
  let ev0 := [PEvent.provisionPhase env.state.solution.provisionSucceeded]
  if res.1 == ExecKind.failure || res.1 == ExecKind.partialSuccess then
    { result := .error ((res.2.1).getD
        (systemError SolutionSource "InternalError" "provision failed")),
      envInfo := { env with state := res.2.2 }, events := ev0 }
  else
    let r := armAndAfter o flags inputs { env with state := res.2.2 }
    { r with events := ev0 ++ r.events }

/-- Lines 285-438 of `provisionResourceImpl`: sets
`state.solution.provisionSucceeded = false` (line 285) and runs the
provision / ARM / AAD / configure phases. -/
def provisionPhaseAndAfter (o : ProvisionOracle) (flags : ProjectFlags)
    (inputs : ProvisionInputs) (env : EnvInfo) : ProvisionRunResult :=
  provisionPhasesCore o flags inputs
    { env with state := { env.state with solution :=
        { env.state.solution with provisionSucceeded := some false } } }

/-- Lines 124-274 of `provisionResourceImpl` (everything before the plugin
phases): project-path and token checks, M365 tenant comparison and switch
policy, permission request, `fillInAzureConfigs`, consent, resource-group
creation and config-file handling; an `error` outcome carries the env info
and events at the early return, an `ok` outcome the env info and events to
continue the phases with. -/
def provisionPreamble (o : ProvisionOracle) (flags : ProjectFlags)
    (inputs : ProvisionInputs) (env : EnvInfo) :
    Except (FxError × EnvInfo × List PEvent) (EnvInfo × List PEvent) :=
  if inputs.projectPath == none then
    .error (systemError SolutionSource "InternelError" "projectPath is undefined",
      env, [])
  else
    match o.m365.accessToken with
    | .error e => .error (e, env, [])
    | .ok _ =>
      let _hasBotServiceCreatedBefore := hasBotServiceCreated env
      let env := ensureComponent env V1PluginNames.appStudio
      let tenantIdInConfig := getCompField env V1PluginNames.appStudio "tenantId"
      match getM365TenantId o.m365 with
      | .error e => .error (e, env, [])
      | .ok (tenantIdInToken, tenantUserName) =>
        let isSwitchAccountEnabled := o.allowSwitchAccount
        let isSwitchingM365Tenant :=
          truthy tenantIdInConfig && !(tenantIdInToken == "")
            && !(some tenantIdInToken == tenantIdInConfig)
        if isSwitchingM365Tenant && !isSwitchAccountEnabled then
          .error (userError "Solution" "TeamsAppTenantIdNotRight"
              (getLocalizedString "error.M365AccountNotMatch" [env.envName]),
            env, [])
        else
          let hasSwitchedM365Tenant := isSwitchingM365Tenant && isSwitchAccountEnabled
          let env := if hasSwitchedM365Tenant then resetEnvInfoWhenSwitchM365 env else env
          let env := ensureComponent env V1PluginNames.appStudio
          let env := setCompField env V1PluginNames.appStudio "tenantId" tenantIdInToken
          let env := { env with state := { env.state with solution :=
              { env.state.solution with teamsAppTenantId := some tenantIdInToken } } }
          if flags.isAzureProject && flags.hasAzureResource then
            match (if flags.hasAAD then o.ensurePermissionRequestRes else .ok ()) with
            | .error e => .error (e, env, [])
            | .ok _ =>
              let _subscriptionIdInState := env.state.solution.subscriptionId
              let fill := fillInAzureConfigs o.azure inputs flags.appName env
              match fill.result with
              | .error e => .error (e, fill.envInfo, [PEvent.fillAzureConfigs])
              | .ok hasSwitchedSubscription =>
                let env := fill.envInfo
                let consent := askForProvisionConsentNew o.azure.username env
                    hasSwitchedM365Tenant hasSwitchedSubscription tenantUserName true
                    o.consentResponses
                match consent.1 with
                | .error e => .error (e, env, [PEvent.fillAzureConfigs])
                | .ok _ =>
                  match (if env.state.solution.needCreateResourceGroup == some true
                         then o.createResourceGroupRes else .ok ()) with
                  | .error e => .error (e, env, [PEvent.fillAzureConfigs])
                  | .ok _ =>
                    match (if hasSwitchedSubscription || hasSwitchedM365Tenant
                           then o.handleConfigFilesRes else .ok ()) with
                    | .error e => .error (e, env, [PEvent.fillAzureConfigs])
                    | .ok _ => .ok (env, [PEvent.fillAzureConfigs])
          else if hasSwitchedM365Tenant then
            let consent := askForProvisionConsentNew o.azure.username env
                hasSwitchedM365Tenant false tenantUserName false o.consentResponses
            match consent.1 with
            | .error e => .error (e, env, [])
            | .ok _ =>
              match o.handleConfigFilesRes with
              | .error e => .error (e, env, [])
              | .ok _ => .ok (env, [])
          else .ok (env, [])

/-- `provisionResourceImpl`: the preamble followed by the plugin phases. -/
def provisionResourceImpl (o : ProvisionOracle) (flags : ProjectFlags)
    (inputs : ProvisionInputs) (env : EnvInfo) : ProvisionRunResult :=
  match provisionPreamble o flags inputs env with
  | .error (e, env2, evs) => { result := .error e, envInfo := env2, events := evs }
  | .ok (env2, evs) =>
    let r := provisionPhaseAndAfter o flags inputs env2
    { r with events := evs ++ r.events }

theorem foldl_applyPluginResult_solution
    (thunks : List (String × Except FxError ComponentState)) (st : EnvState) :
    (thunks.foldl applyPluginResult st).solution = st.solution := by
  induction thunks generalizing st with
  | nil => rfl
  | cons t rest ih =>
    rw [List.foldl_cons, ih]
    unfold applyPluginResult
    cases h : t.2 with
    | ok patch => simp only [h]
    | error e =>
      simp only [h]
      split <;> rfl

theorem executeConcurrently_solution
    (thunks : List (String × Except FxError ComponentState)) (st : EnvState) :
    (executeConcurrently thunks st).2.2.solution = st.solution :=
  foldl_applyPluginResult_solution thunks st

theorem configurePhasePart_cases (o : ProvisionOracle) (env : EnvInfo)
    (h : env.state.solution.provisionSucceeded = some false) (b : Option Bool) :
    (PEvent.provisionPhase b ∉ (configurePhasePart o env).events)
  ∧ (PEvent.flagSetTrue ∈ (configurePhasePart o env).events →
      (configurePhasePart o env).result = .ok ()
      ∧ (configurePhasePart o env).envInfo.state.solution.provisionSucceeded = some true)
  ∧ (∀ e, (configurePhasePart o env).result = .error e →
      PEvent.flagSetTrue ∉ (configurePhasePart o env).events
      ∧ (configurePhasePart o env).envInfo.state.solution.provisionSucceeded
          = some false) := by
  have hsol := executeConcurrently_solution (o.plugins.filterMap
    (fun p => p.configureRes.map (fun r => (p.name, r)))) env.state
  simp only [configurePhasePart]
  generalize hres : executeConcurrently (o.plugins.filterMap
      (fun p => p.configureRes.map (fun r => (p.name, r)))) env.state = res at hsol ⊢
  obtain ⟨kind, errOpt, st⟩ := res
  cases kind <;> simp_all

theorem aadAndConfigure_cases (o : ProvisionOracle) (env : EnvInfo)
    (h : env.state.solution.provisionSucceeded = some false) (b : Option Bool) :
    (PEvent.provisionPhase b ∉ (aadAndConfigure o env).events)
  ∧ (PEvent.flagSetTrue ∈ (aadAndConfigure o env).events →
      (aadAndConfigure o env).result = .ok ()
      ∧ (aadAndConfigure o env).envInfo.state.solution.provisionSucceeded = some true)
  ∧ (∀ e, (aadAndConfigure o env).result = .error e →
      PEvent.flagSetTrue ∉ (aadAndConfigure o env).events
      ∧ (aadAndConfigure o env).envInfo.state.solution.provisionSucceeded
          = some false) := by
  unfold aadAndConfigure
  split
  · split
    · refine ⟨by simp, by simp, ?_⟩
      intro e he
      exact ⟨by simp, h⟩
    · exact configurePhasePart_cases o env h b
  · exact configurePhasePart_cases o env h b

theorem armAndAfter_cases (o : ProvisionOracle) (flags : ProjectFlags)
    (inputs : ProvisionInputs) (env : EnvInfo)
    (h : env.state.solution.provisionSucceeded = some false)
    (harm : ∀ p s, o.armDeploy = .ok p → p.solutionPatch = some s →
        s.provisionSucceeded = some false) (b : Option Bool) :
    (PEvent.provisionPhase b ∉ (armAndAfter o flags inputs env).events)
  ∧ (PEvent.flagSetTrue ∈ (armAndAfter o flags inputs env).events →
      (armAndAfter o flags inputs env).result = .ok ()
      ∧ (armAndAfter o flags inputs env).envInfo.state.solution.provisionSucceeded
          = some true)
  ∧ (∀ e, (armAndAfter o flags inputs env).result = .error e →
      PEvent.flagSetTrue ∉ (armAndAfter o flags inputs env).events
      ∧ (armAndAfter o flags inputs env).envInfo.state.solution.provisionSucceeded
          = some false) := by
  unfold armAndAfter
  split
  · split
    · refine ⟨by simp, by simp, ?_⟩
      intro e he
      exact ⟨by simp, h⟩
    · rename_i patch heq
      refine aadAndConfigure_cases o _ ?_ b
      show (applyArmPatch env.state patch).solution.provisionSucceeded = some false
      unfold applyArmPatch
      cases hp : patch.solutionPatch with
      | none => simpa using h
      | some s => simpa using harm patch s heq hp
  · exact aadAndConfigure_cases o env h b

theorem provisionPhasesCore_cases (o : ProvisionOracle) (flags : ProjectFlags)
    (inputs : ProvisionInputs) (env : EnvInfo)
    (h : env.state.solution.provisionSucceeded = some false)
    (harm : ∀ p s, o.armDeploy = .ok p → p.solutionPatch = some s →
        s.provisionSucceeded = some false) (b : Option Bool) :
    (PEvent.provisionPhase b ∈ (provisionPhasesCore o flags inputs env).events →
        b = some false)
  ∧ (PEvent.flagSetTrue ∈ (provisionPhasesCore o flags inputs env).events →
      (provisionPhasesCore o flags inputs env).result = .ok ()
      ∧ (provisionPhasesCore o flags inputs env).envInfo.state.solution.provisionSucceeded
          = some true)
  ∧ (∀ e, (provisionPhasesCore o flags inputs env).result = .error e →
      (provisionPhasesCore o flags inputs env).envInfo.state.solution.provisionSucceeded
          = some false) := by
  have hsol := executeConcurrently_solution (o.plugins.filterMap
    (fun p => p.provisionRes.map (fun r => (p.name, r)))) env.state
  have harm2 := fun (env3 : EnvInfo) (h3 : env3.state.solution.provisionSucceeded = some false) =>
    armAndAfter_cases o flags inputs env3 h3 harm b
  simp only [provisionPhasesCore]
  generalize hres : executeConcurrently (o.plugins.filterMap
      (fun p => p.provisionRes.map (fun r => (p.name, r)))) env.state = res at hsol ⊢
  obtain ⟨kind, errOpt, st⟩ := res
  have h3 : ({ env with state := st } : EnvInfo).state.solution.provisionSucceeded
      = some false := by
    simp only [] at hsol
    show st.solution.provisionSucceeded = some false
    rw [hsol]
    exact h
  obtain ⟨hnp, hfst, herr⟩ := harm2 { env with state := st } h3
  cases kind with
  | failure =>
    rw [if_pos (by decide : ((ExecKind.failure == ExecKind.failure
      || ExecKind.failure == ExecKind.partialSuccess) = true))]
    refine ⟨?_, ?_, ?_⟩
    · intro hb
      rw [h] at hb
      simpa using hb
    · intro hb
      rw [h] at hb
      simp at hb
    · intro e he
      exact h3
  | partialSuccess =>
    rw [if_pos (by decide : ((ExecKind.partialSuccess == ExecKind.failure
      || ExecKind.partialSuccess == ExecKind.partialSuccess) = true))]
    refine ⟨?_, ?_, ?_⟩
    · intro hb
      rw [h] at hb
      simpa using hb
    · intro hb
      rw [h] at hb
      simp at hb
    · intro e he
      exact h3
  | success =>
    rw [if_neg (by decide : ¬((ExecKind.success == ExecKind.failure
      || ExecKind.success == ExecKind.partialSuccess) = true))]
    refine ⟨?_, ?_, ?_⟩
    · intro hb
      rw [h] at hb
      rcases List.mem_append.mp hb with hb1 | hb1
      · simpa using hb1
      · exact absurd hb1 hnp
    · intro hb
      rw [h] at hb
      rcases List.mem_append.mp hb with hb1 | hb1
      · simp at hb1
      · exact hfst hb1
    · intro e he
      exact (herr e he).2
theorem provisionPreamble_events (o : ProvisionOracle) (flags : ProjectFlags)
    (inputs : ProvisionInputs) (env : EnvInfo) :
    (∀ e env2 evs, provisionPreamble o flags inputs env = .error (e, env2, evs) →
      ∀ ev ∈ evs, ev = PEvent.fillAzureConfigs)
  ∧ (∀ env2 evs, provisionPreamble o flags inputs env = .ok (env2, evs) →
      ∀ ev ∈ evs, ev = PEvent.fillAzureConfigs) := by
  constructor
  · intro e env2 evs h ev hev
    unfold provisionPreamble at h
    repeat' split at h
    all_goals (try simp_all)
    all_goals (repeat' split at h)
    all_goals (try simp_all)
    all_goals (obtain ⟨h1, h2, h3⟩ := h)
    all_goals (rw [← h3] at hev)
    all_goals simpa using hev
  · intro env2 evs h ev hev
    unfold provisionPreamble at h
    repeat' split at h
    all_goals (try simp_all)
    all_goals (repeat' split at h)
    all_goals (try simp_all)
    all_goals (obtain ⟨h1, h3⟩ := h)
    all_goals (rw [← h3] at hev)
    all_goals simpa using hev

/-- Claim C7: `provisionResourceImpl` writes
`state.solution.provisionSucceeded = false` before invoking any plugin's
provision phase (the provision-phase event always records `false`), writes
`true` only on the path where the configure phase fully succeeds, and on
every run that reaches the provision phase and then fails (provision phase,
ARM deployment, AAD task or configure phase) it returns an error with the
flag still `false`. The hypothesis states the contract of the ARM
deployment output: the deep-copied state it merges back does not flip
`provisionSucceeded`. -/
theorem provision_succeeded_flag (o : ProvisionOracle) (flags : ProjectFlags)
    (inputs : ProvisionInputs) (env : EnvInfo)
    (harm : ∀ p s, o.armDeploy = .ok p → p.solutionPatch = some s →
        s.provisionSucceeded = some false) :
    (∀ b, PEvent.provisionPhase b ∈ (provisionResourceImpl o flags inputs env).events →
        b = some false)
  ∧ (PEvent.flagSetTrue ∈ (provisionResourceImpl o flags inputs env).events →
      (provisionResourceImpl o flags inputs env).result = .ok ()
      ∧ (provisionResourceImpl o flags inputs env).envInfo.state.solution.provisionSucceeded
          = some true)
  ∧ (∀ e b, (provisionResourceImpl o flags inputs env).result = .error e →
      PEvent.provisionPhase b ∈ (provisionResourceImpl o flags inputs env).events →
      (provisionResourceImpl o flags inputs env).envInfo.state.solution.provisionSucceeded
          = some false) := by
  cases hpre : provisionPreamble o flags inputs env with
  | error t =>
    obtain ⟨e, env2, evs⟩ := t
    have hevs := (provisionPreamble_events o flags inputs env).1 e env2 evs hpre
    have hR : provisionResourceImpl o flags inputs env
        = { result := .error e, envInfo := env2, events := evs } := by
      unfold provisionResourceImpl
      rw [hpre]
    rw [hR]
    refine ⟨?_, ?_, ?_⟩
    · intro b hb
      have := hevs _ hb
      simp at this
    · intro hb
      have := hevs _ hb
      simp at this
    · intro e' b he hb
      have := hevs _ hb
      simp at this
  | ok t =>
    obtain ⟨env2, evs⟩ := t
    have hevs := (provisionPreamble_events o flags inputs env).2 env2 evs hpre
    have htail := fun (b : Option Bool) => provisionPhasesCore_cases o flags inputs
      { env2 with state := { env2.state with solution :=
          { env2.state.solution with provisionSucceeded := some false } } } rfl harm b
    have hR : provisionResourceImpl o flags inputs env
        = { provisionPhaseAndAfter o flags inputs env2 with
            events := evs ++ (provisionPhaseAndAfter o flags inputs env2).events } := by
      unfold provisionResourceImpl
      rw [hpre]
    rw [hR]
    refine ⟨?_, ?_, ?_⟩
    · intro b hb
      obtain ⟨hpp, -, -⟩ := htail b
      simp only [List.mem_append] at hb
      rcases hb with hb | hb
      · have := hevs _ hb
        simp at this
      · exact hpp hb
    · intro hb
      obtain ⟨-, hfst, -⟩ := htail none
      simp only [List.mem_append] at hb
      rcases hb with hb | hb
      · have := hevs _ hb
        simp at this
      · exact hfst hb
    · intro e b he hb
      obtain ⟨-, -, herrflag⟩ := htail none
      exact herrflag e he

/-- Claim C7 witness: a run with one plugin whose configure phase fails
returns that plugin's error with `provisionSucceeded = false` after a
provision-phase event that recorded `false`, while the same run with a
succeeding configure phase ends with the flag `true`. -/
theorem provision_succeeded_flag_witness :
    ((provisionResourceImpl
        { m365 := { accessToken := .ok (), jsonObject := some (some "t1", some "user") },
          allowSwitchAccount := false,
          azure :=
            { subCheck :=
                { selectedSubscription := some ⟨"s1", "S1", "t1"⟩,
                  subscriptions := [⟨"s1", "S1", "t1"⟩] },
              loggedIn := true,
              rg := { getResourceGroupInfo := fun _ => .ok none,
                      checkResourceGroupExistence := fun _ => .ok true,
                      askResourceGroupInfo := .ok ⟨false, "rg1", "westus"⟩ },
              freshUuid := "abc123", username := "user" },
          consentResponses := [some provisionText],
          plugins := [{ name := "fx-resource-bot",
                        provisionRes := some (.ok [("botId", "b1")]),
                        configureRes := some (.error (userError "bot" "ConfigError" "boom")) }] }
        { isAzureProject := true, hasAzureResource := true, hasAAD := false,
          isExistingTabApp := false, appName := "app" }
        { projectPath := some "/p", envName := "dev" }
        { envName := "dev" }).result
      = .error (userError "bot" "ConfigError" "boom"))
  ∧ (PEvent.provisionPhase (some false) ∈ (provisionResourceImpl
        { m365 := { accessToken := .ok (), jsonObject := some (some "t1", some "user") },
          allowSwitchAccount := false,
          azure :=
            { subCheck :=
                { selectedSubscription := some ⟨"s1", "S1", "t1"⟩,
                  subscriptions := [⟨"s1", "S1", "t1"⟩] },
              loggedIn := true,
              rg := { getResourceGroupInfo := fun _ => .ok none,
                      checkResourceGroupExistence := fun _ => .ok true,
                      askResourceGroupInfo := .ok ⟨false, "rg1", "westus"⟩ },
              freshUuid := "abc123", username := "user" },
          consentResponses := [some provisionText],
          plugins := [{ name := "fx-resource-bot",
                        provisionRes := some (.ok [("botId", "b1")]),
                        configureRes := some (.error (userError "bot" "ConfigError" "boom")) }] }
        { isAzureProject := true, hasAzureResource := true, hasAAD := false,
          isExistingTabApp := false, appName := "app" }
        { projectPath := some "/p", envName := "dev" }
        { envName := "dev" }).events)
  ∧ ((provisionResourceImpl
        { m365 := { accessToken := .ok (), jsonObject := some (some "t1", some "user") },
          allowSwitchAccount := false,
          azure :=
            { subCheck :=
                { selectedSubscription := some ⟨"s1", "S1", "t1"⟩,
                  subscriptions := [⟨"s1", "S1", "t1"⟩] },
              loggedIn := true,
              rg := { getResourceGroupInfo := fun _ => .ok none,
                      checkResourceGroupExistence := fun _ => .ok true,
                      askResourceGroupInfo := .ok ⟨false, "rg1", "westus"⟩ },
              freshUuid := "abc123", username := "user" },
          consentResponses := [some provisionText],
          plugins := [{ name := "fx-resource-bot",
                        provisionRes := some (.ok [("botId", "b1")]),
                        configureRes := some (.error (userError "bot" "ConfigError" "boom")) }] }
        { isAzureProject := true, hasAzureResource := true, hasAAD := false,
          isExistingTabApp := false, appName := "app" }
        { projectPath := some "/p", envName := "dev" }
        { envName := "dev" }).envInfo.state.solution.provisionSucceeded = some false) := by
  refine ⟨rfl, by decide, ?_⟩
  exact (provision_succeeded_flag _ _ _ _
      (by intro p s hp hs; cases hp; cases hs)).2.2
    (userError "bot" "ConfigError" "boom") (some false) rfl (by decide)

/-- Claim C4: when a tenant id stored from a prior run exists in the
app-studio state, the signed-in token carries a different (non-empty)
tenant id, and account switching is disabled by configuration,
`provisionResourceImpl` returns the `TeamsAppTenantIdNotRight` user error
whose message names the mismatched environment, and the run performs no
subscription or resource-group resolution: its event trace is empty, so in
particular `fillInAzureConfigs` is never reached. -/
theorem provision_tenant_mismatch_fails_fast (o : ProvisionOracle)
    (flags : ProjectFlags) (inputs : ProvisionInputs) (env : EnvInfo)
    (pp t1 t2 un : String)
    (h1 : inputs.projectPath = some pp)
    (h2 : o.m365.accessToken = .ok ())
    (h3 : getM365TenantId o.m365 = .ok (t2, un))
    (h4 : getCompField env V1PluginNames.appStudio "tenantId" = some t1)
    (h5 : t1 ≠ "")
    (h6 : t2 ≠ "")
    (h7 : t1 ≠ t2)
    (h8 : o.allowSwitchAccount = false) :
    (provisionResourceImpl o flags inputs env).result
      = .error (userError "Solution" "TeamsAppTenantIdNotRight"
          (getLocalizedString "error.M365AccountNotMatch" [env.envName]))
  ∧ (provisionResourceImpl o flags inputs env).events = []
  ∧ PEvent.fillAzureConfigs ∉ (provisionResourceImpl o flags inputs env).events := by
  have hens : ensureComponent env V1PluginNames.appStudio = env := by
    unfold ensureComponent
    cases hl : env.state.components.lookup V1PluginNames.appStudio with
    | none => simp [getCompField, hl] at h4
    | some st => simp [hl]
  have h7' : t2 ≠ t1 := Ne.symm h7
  have hpre : provisionPreamble o flags inputs env
      = .error (userError "Solution" "TeamsAppTenantIdNotRight"
          (getLocalizedString "error.M365AccountNotMatch" [env.envName]), env, []) := by
    unfold provisionPreamble
    rw [hens]
    simp [h1, h2, h3, h4, h8, truthy, h5, h6, h7']
  have hR : provisionResourceImpl o flags inputs env
      = { result := .error (userError "Solution" "TeamsAppTenantIdNotRight"
            (getLocalizedString "error.M365AccountNotMatch" [env.envName])),
          envInfo := env, events := [] } := by
    unfold provisionResourceImpl
    rw [hpre]
  rw [hR]
  exact ⟨rfl, rfl, by simp⟩

/-- Claim C4 witness: an environment provisioned under tenant `t-old` with a
token for tenant `t-new` and switching disabled fails with the
`TeamsAppTenantIdNotRight` error naming the `dev` environment, with an
empty event trace. -/
theorem provision_tenant_mismatch_fails_fast_witness :
    ((provisionResourceImpl
        { m365 := { accessToken := .ok (), jsonObject := some (some "t-new", some "user") },
          allowSwitchAccount := false,
          azure :=
            { subCheck :=
                { selectedSubscription := some ⟨"s1", "S1", "t-new"⟩,
                  subscriptions := [⟨"s1", "S1", "t-new"⟩] },
              loggedIn := true,
              rg := { getResourceGroupInfo := fun _ => .ok none,
                      checkResourceGroupExistence := fun _ => .ok true,
                      askResourceGroupInfo := .ok ⟨false, "rg1", "westus"⟩ },
              freshUuid := "abc123", username := "user" },
          consentResponses := [some provisionText] }
        { appName := "app" }
        { projectPath := some "/p", envName := "dev" }
        { envName := "dev",
          state := { components := [(V1PluginNames.appStudio, [("tenantId", "t-old")])] } }).result
      = .error (userError "Solution" "TeamsAppTenantIdNotRight"
          (getLocalizedString "error.M365AccountNotMatch" ["dev"])))
  ∧ PEvent.fillAzureConfigs ∉ (provisionResourceImpl
        { m365 := { accessToken := .ok (), jsonObject := some (some "t-new", some "user") },
          allowSwitchAccount := false,
          azure :=
            { subCheck :=
                { selectedSubscription := some ⟨"s1", "S1", "t-new"⟩,
                  subscriptions := [⟨"s1", "S1", "t-new"⟩] },
              loggedIn := true,
              rg := { getResourceGroupInfo := fun _ => .ok none,
                      checkResourceGroupExistence := fun _ => .ok true,
                      askResourceGroupInfo := .ok ⟨false, "rg1", "westus"⟩ },
              freshUuid := "abc123", username := "user" },
          consentResponses := [some provisionText] }
        { appName := "app" }
        { projectPath := some "/p", envName := "dev" }
        { envName := "dev",
          state := { components := [(V1PluginNames.appStudio, [("tenantId", "t-old")])] } }).events := by
  have h := provision_tenant_mismatch_fails_fast
      { m365 := { accessToken := .ok (), jsonObject := some (some "t-new", some "user") },
        allowSwitchAccount := false,
        azure :=
          { subCheck :=
              { selectedSubscription := some ⟨"s1", "S1", "t-new"⟩,
                subscriptions := [⟨"s1", "S1", "t-new"⟩] },
            loggedIn := true,
            rg := { getResourceGroupInfo := fun _ => .ok none,
                    checkResourceGroupExistence := fun _ => .ok true,
                    askResourceGroupInfo := .ok ⟨false, "rg1", "westus"⟩ },
            freshUuid := "abc123", username := "user" },
        consentResponses := [some provisionText] }
      { appName := "app" }
      { projectPath := some "/p", envName := "dev" }
      { envName := "dev",
        state := { components := [(V1PluginNames.appStudio, [("tenantId", "t-old")])] } }
      "/p" "t-old" "t-new" "user"
      rfl rfl rfl (by decide) (by decide) (by decide) (by decide) rfl
  exact ⟨h.1, h.2.2⟩

end TeamsFx
